import Mathlib

/-!
# Terraform AWS provider: resource handlers as pure functions

A shallow embedding of two resource handlers of the provider,

* `internal/service/ec2/transitgateway_policy_table_association.go`
* `internal/service/redshiftserverless/workgroup.go`

Handlers are stateful Go functions over a `*schema.ResourceData` and an AWS
connection.  Here a handler is a pure function from the resource data and a
connection (a record of answers the remote API gives) to an outcome: the
resource data it leaves behind, the list of remote calls it issued in order,
and the error or diagnostics it returns.

Go strings are modelled by `String`.  The only separator the code splits on is
the ASCII text `_`, for which splitting by bytes and splitting by code points
agree on valid UTF-8.
-/

set_option autoImplicit false

/-! ## Go errors -/

/-- A Go `error` value, as far as the handlers can tell errors apart. -/
inductive GoError where
  /-- Result of `fmt.Errorf` with a format that has no `%w` verb. -/
  | errorf (msg : String)
  /-- Result of `fmt.Errorf(pre + "%w", cause)`: it wraps `cause`. -/
  | wrapf (pre : String) (cause : GoError)
  /-- An `awserr.Error` with its code and message. -/
  | awserr (code : String) (message : String)
  /-- A `*retry.NotFoundError`, as the finders return it. -/
  | notFound (message : String)
  /-- Any other error (waiter timeouts, transport failures, ...). -/
  | other (message : String)
  deriving DecidableEq, Repr

namespace GoError

/-- The `Error()` method: the message of the error. -/
def Error : GoError → String
  | errorf msg => msg
  | wrapf pre cause => pre ++ cause.Error
  | awserr code message => code ++ ": " ++ message
  | notFound message => message
  | other message => message

/-- The call `errors.As(err, &notFoundErr)` with a `*retry.NotFoundError`
target: whether the chain of wrapped errors holds one. -/
def asNotFound : GoError → Bool
  | notFound _ => true
  | wrapf _ cause => cause.asNotFound
  | _ => false

/-- The call `errors.As(err, &awsErr)` with an `awserr.Error` target: code
and message of the first one in the chain of wrapped errors. -/
def asAWSErr : GoError → Option (String × String)
  | awserr code message => some (code, message)
  | wrapf _ cause => cause.asAWSErr
  | _ => none

end GoError

namespace tfresource

/-- Modelled from the spec: `tfresource.NotFound` (internal/tfresource, not
among the sources) recognises the "resource not found" class of errors; it is
`errors.As` against `*retry.NotFoundError`, so it looks through wrapping. -/
def NotFound : Option GoError → Bool
  | none => false
  | some err => err.asNotFound

end tfresource

namespace tfawserr

/-- The function `tfawserr.ErrCodeEquals(err, code)`: `err` is, or wraps, an
`awserr.Error` whose code is `code`.  A nil error never matches. -/
def ErrCodeEquals : Option GoError → String → Bool
  | none, _ => false
  | some err, code =>
    match err.asAWSErr with
    | some (c, _) => c == code
    | none => false

end tfawserr

/-! ## The string functions of the Go standard library used by the code -/

namespace strings

/-- Walks `s` looking for the non-empty separator `sep`, leftmost first and
without overlap; `skip` counts the characters of a separator just found that
are still to be passed over. -/
def splitChars (sep : List Char) : List Char → Nat → List (List Char)
  | [], _ => [[]]
  | _ :: cs, skip + 1 => splitChars sep cs skip
  | c :: cs, 0 =>
    if sep.isPrefixOf (c :: cs) then
      [] :: splitChars sep cs (sep.length - 1)
    else
      match splitChars sep cs 0 with
      | [] => [[c]]
      | p :: ps => (c :: p) :: ps

/-- The function `strings.Split(s, sep)`: all substrings of `s` between
occurrences of `sep`.  With an empty `sep` it splits after each character. -/
def Split (s sep : String) : List String :=
  if sep = "" then s.data.map (fun c => String.mk [c])
  else (splitChars sep.data s.data 0).map String.mk

/-- The function `strings.Join(elems, sep)`. -/
def Join (elems : List String) (sep : String) : String :=
  sep.intercalate elems

/-- The function `strings.Contains(s, substr)`. -/
def Contains (s substr : String) : Bool :=
  s.data.tails.any (fun t => substr.data.isPrefixOf t)

end strings

namespace aws

/-- The function `aws.StringValue`: the pointed-to string, or `""` for nil. -/
def StringValue (v : Option String) : String := v.getD ""

/-- The function `aws.Int64Value`: the pointed-to number, or `0` for nil. -/
def Int64Value (v : Option Int) : Int := v.getD 0

end aws

/-! ## EC2 transit gateway policy table association -/

namespace ec2

/-- The SDK struct `ec2.TransitGatewayPolicyTableAssociation`; every field is
a `*string`. -/
structure TransitGatewayPolicyTableAssociation where
  ResourceId : Option String
  ResourceType : Option String
  State : Option String
  TransitGatewayAttachmentId : Option String
  TransitGatewayPolicyTableId : Option String
  deriving DecidableEq, Repr

/-- A value handed to `d.Set` by this resource: a `*string`, or the pointer to
the whole association struct. -/
inductive SetValue where
  | stringPtr (v : Option String)
  | association (v : TransitGatewayPolicyTableAssociation)
  deriving DecidableEq, Repr

/-- The names of the attributes of the resource schema; all are `TypeString`. -/
def schemaKeys : List String :=
  ["resource_id", "resource_type", "state", "transit_gateway_attachment_id",
   "transit_gateway_policy_table_id"]

/-- The `*schema.ResourceData` of this resource: identifier, new-resource mark
and the attribute bag (an attribute that is unset reads as `""`). -/
structure ResourceData where
  id : String
  isNewResource : Bool
  attrs : String → String

namespace ResourceData

/-- The method `d.Id()`. -/
def Id (d : ResourceData) : String := d.id

/-- The method `d.SetId(v)`. -/
def SetId (d : ResourceData) (v : String) : ResourceData := { d with id := v }

/-- The method `d.IsNewResource()`. -/
def IsNewResource (d : ResourceData) : Bool := d.isNewResource

/-- The method `d.Get(key).(string)` for a string attribute. -/
def Get (d : ResourceData) (key : String) : String := d.attrs key

/-- The method `d.Set(key, value)` on a schema of string attributes.  A nil
`*string` removes the value, a non-nil one is dereferenced and stored.  A
pointer to a struct is not dereferenced and cannot be converted to a string:
the writer reports an error and the attribute keeps its value. -/
def Set (d : ResourceData) (key : String) (value : SetValue) :
    ResourceData × Option GoError :=
  if key ∈ schemaKeys then
    match value with
    | .stringPtr none =>
      ({ d with attrs := fun k => if k = key then "" else d.attrs k }, none)
    | .stringPtr (some s) =>
      ({ d with attrs := fun k => if k = key then s else d.attrs k }, none)
    | .association _ =>
      (d, some (.errorf (key ++ ": '' expected type 'string', got unconvertible type " ++
        "'*ec2.TransitGatewayPolicyTableAssociation'")))
  else
    (d, some (.errorf ("Invalid address to set: " ++ key)))

end ResourceData

/-- A remote operation issued through the EC2 connection, with its arguments
in the order of the Go call. -/
inductive Call where
  | AssociateTransitGatewayPolicyTable (attachmentID policyTableID : String)
  | DisassociateTransitGatewayPolicyTable (attachmentID policyTableID : String)
  | WaitTransitGatewayPolicyTableAssociationCreated (policyTableID attachmentID : String)
  | WaitTransitGatewayPolicyTableAssociationDeleted (policyTableID attachmentID : String)
  | FindTransitGatewayPolicyTableAssociationByTwoPartKey (policyTableID attachmentID : String)
  deriving DecidableEq, Repr

/-- The answers of the remote side.  The API methods live in the SDK and the
finder and the waiters in files of the package that are not among the sources;
each handler calls each of them at most once, so an answer per argument list
describes them.  `none` is a nil error. -/
structure Conn where
  AssociateTransitGatewayPolicyTable : (attachmentID policyTableID : String) → Option GoError
  DisassociateTransitGatewayPolicyTable : (attachmentID policyTableID : String) → Option GoError
  WaitTransitGatewayPolicyTableAssociationCreated :
    (policyTableID attachmentID : String) → Option GoError
  WaitTransitGatewayPolicyTableAssociationDeleted :
    (policyTableID attachmentID : String) → Option GoError
  FindTransitGatewayPolicyTableAssociationByTwoPartKey :
    (policyTableID attachmentID : String) → Except GoError TransitGatewayPolicyTableAssociation

/-- What a handler leaves behind: the resource data, the remote calls it made
in order, and the error it returns (`none` for nil). -/
structure Outcome where
  data : ResourceData
  calls : List Call
  err : Option GoError

/-- The constant `transitGatewayPolicyTableAssociationIDSeparator`. -/
def transitGatewayPolicyTableAssociationIDSeparator : String := "_"

/-- The function `TransitGatewayPolicyTableAssociationCreateResourceID`. -/
def TransitGatewayPolicyTableAssociationCreateResourceID
    (transitGatewayPolicyTableID transitGatewayAttachmentID : String) : String :=
  let parts := [transitGatewayPolicyTableID, transitGatewayAttachmentID]
  let id := strings.Join parts transitGatewayPolicyTableAssociationIDSeparator
  id

/-- The error that `TransitGatewayPolicyTableAssociationParseResourceID` builds
with `fmt.Errorf` for an identifier it rejects. -/
def unexpectedFormatError (id : String) : GoError :=
  .errorf ("unexpected format for ID (" ++ id ++ "), expected TRANSIT-GATEWAY-POLICY-TABLE-ID"
    ++ transitGatewayPolicyTableAssociationIDSeparator ++ "TRANSIT-GATEWAY-ATTACHMENT-ID")

/-- The function `TransitGatewayPolicyTableAssociationParseResourceID`; the
result is the Go triple `(string, string, error)`. -/
def TransitGatewayPolicyTableAssociationParseResourceID (id : String) :
    String × String × Option GoError :=
  let parts := strings.Split id transitGatewayPolicyTableAssociationIDSeparator
  if parts.length = 2 ∧ parts.getD 0 "" ≠ "" ∧ parts.getD 1 "" ≠ "" then
    (parts.getD 0 "", parts.getD 1 "", none)
  else
    ("", "", some (unexpectedFormatError id))

/-- The handler `ResourceTransitGatewayPolicyTableAssociationRead`. -/
def ResourceTransitGatewayPolicyTableAssociationRead (conn : Conn) (d : ResourceData) :
    Outcome :=
  match TransitGatewayPolicyTableAssociationParseResourceID d.Id with
  | (_, _, some err) => ⟨d, [], some err⟩
  | (transitGatewayPolicyTableID, transitGatewayAttachmentID, none) =>
    let calls := [Call.FindTransitGatewayPolicyTableAssociationByTwoPartKey
      transitGatewayPolicyTableID transitGatewayAttachmentID]
    match conn.FindTransitGatewayPolicyTableAssociationByTwoPartKey
        transitGatewayPolicyTableID transitGatewayAttachmentID with
    | .error err =>
      if !d.IsNewResource && tfresource.NotFound (some err) then
        ⟨d.SetId "", calls, none⟩
      else
        ⟨d, calls, some (.wrapf
          ("reading EC2 Transit Gateway Policy Table Association (" ++ d.Id ++ "): ") err)⟩
    | .ok transitGatewayPolicyTableAssociation =>
      let d := (d.Set "resource_id"
        (.stringPtr transitGatewayPolicyTableAssociation.ResourceId)).1
      let d := (d.Set "resource_type"
        (.stringPtr transitGatewayPolicyTableAssociation.ResourceType)).1
      let d := (d.Set "transit_gateway_attachment_id"
        (.stringPtr transitGatewayPolicyTableAssociation.TransitGatewayAttachmentId)).1
      let d := (d.Set "state" (.stringPtr transitGatewayPolicyTableAssociation.State)).1
      let d := (d.Set "transit_gateway_policy_table_id"
        (.association transitGatewayPolicyTableAssociation)).1
      ⟨d, calls, none⟩

/-- The handler `ResourceTransitGatewayPolicyTableAssociationCreate`. -/
def ResourceTransitGatewayPolicyTableAssociationCreate (conn : Conn) (d : ResourceData) :
    Outcome :=
  let transitGatewayAttachmentID := d.Get "transit_gateway_attachment_id"
  let transitGatewayPolicyTableID := d.Get "transit_gateway_policy_table_id"
  let id := TransitGatewayPolicyTableAssociationCreateResourceID
    transitGatewayPolicyTableID transitGatewayAttachmentID
  let calls := [Call.AssociateTransitGatewayPolicyTable
    transitGatewayAttachmentID transitGatewayPolicyTableID]
  match conn.AssociateTransitGatewayPolicyTable
      transitGatewayAttachmentID transitGatewayPolicyTableID with
  | some err =>
    ⟨d, calls, some (.wrapf
      ("creating EC2 Transit Gateway Policy Table Association (" ++ id ++ "): ") err)⟩
  | none =>
    let d := d.SetId id
    let calls := calls ++ [Call.WaitTransitGatewayPolicyTableAssociationCreated
      transitGatewayPolicyTableID transitGatewayAttachmentID]
    match conn.WaitTransitGatewayPolicyTableAssociationCreated
        transitGatewayPolicyTableID transitGatewayAttachmentID with
    | some err =>
      ⟨d, calls, some (.wrapf
        ("waiting for EC2 Transit Gateway Policy Table Association (" ++ d.Id ++ ") create: ")
        err)⟩
    | none =>
      let r := ResourceTransitGatewayPolicyTableAssociationRead conn d
      ⟨r.data, calls ++ r.calls, r.err⟩

/-- The handler `ResourceTransitGatewayPolicyTableAssociationDelete`.  The
constant `errCodeInvalidPolicyTableIDNotFound` is declared in a file of the
package that is not among the sources, so it is a parameter. -/
def ResourceTransitGatewayPolicyTableAssociationDelete
    (errCodeInvalidPolicyTableIDNotFound : String) (conn : Conn) (d : ResourceData) :
    Outcome :=
  match TransitGatewayPolicyTableAssociationParseResourceID d.Id with
  | (_, _, some err) => ⟨d, [], some err⟩
  | (transitGatewayPolicyTableID, transitGatewayAttachmentID, none) =>
    let calls := [Call.DisassociateTransitGatewayPolicyTable
      transitGatewayAttachmentID transitGatewayPolicyTableID]
    let err := conn.DisassociateTransitGatewayPolicyTable
      transitGatewayAttachmentID transitGatewayPolicyTableID
    if tfawserr.ErrCodeEquals err errCodeInvalidPolicyTableIDNotFound then
      ⟨d, calls, none⟩
    else
      match err with
      | some err =>
        ⟨d, calls, some (.wrapf
          ("deleting EC2 Transit Gateway Policy Table Association (" ++ d.Id ++ "): ") err)⟩
      | none =>
        let calls := calls ++ [Call.WaitTransitGatewayPolicyTableAssociationDeleted
          transitGatewayPolicyTableID transitGatewayAttachmentID]
        match conn.WaitTransitGatewayPolicyTableAssociationDeleted
            transitGatewayPolicyTableID transitGatewayAttachmentID with
        | some err =>
          ⟨d, calls, some (.wrapf
            ("waiting for EC2 Transit Gateway Policy Table Association (" ++ d.Id ++
              ") delete: ") err)⟩
        | none => ⟨d, calls, none⟩

end ec2

/-! ## Values of the plugin SDK -/

namespace tf

/-- A Go `interface{}` as it travels between a handler and the attribute bag.
A Go map is a function from keys to values (`none` where the key is absent);
nil slices and nil maps are told apart from empty ones. -/
inductive Value where
  /-- The untyped nil, also what `d.Set` makes of a nil pointer. -/
  | nil
  | str (s : String)
  | int (n : Int)
  | int64 (n : Int)
  | bool (b : Bool)
  /-- A nil `[]interface{}`. -/
  | nilSlice
  /-- A non-nil `[]interface{}`. -/
  | slice (xs : List Value)
  /-- A nil `map[string]interface{}`. -/
  | nilMap
  /-- A non-nil `map[string]interface{}`. -/
  | map (m : String → Option Value)
  /-- A `*schema.Set` of strings. -/
  | set (xs : List String)

/-- A Go slice: `none` is the nil slice. -/
abbrev Slice (α : Type) := Option (List α)

/-- The builtin `len` on a slice. -/
def Slice.len {α : Type} (s : Slice α) : Nat := (s.getD []).length

/-- The builtin `append(s, x)`: the result is never nil. -/
def Slice.append {α : Type} (s : Slice α) (x : α) : Slice α := some (s.getD [] ++ [x])

/-- The structs behind the non-nil pointers of a slice of pointers, in the
order of the slice. -/
def Slice.nonNil {α : Type} (s : Slice (Option α)) : List α := (s.getD []).filterMap id

/-- A Go `map[string]interface{}`: `none` is the nil map. -/
abbrev TfMap := Option (String → Option Value)

/-- The map literal `map[string]interface{}{}`. -/
def TfMap.empty : String → Option Value := fun _ => none

/-- The assignment `m[key] = v` on a non-nil map. -/
def TfMap.insert (m : String → Option Value) (key : String) (v : Value) :
    String → Option Value :=
  fun k => if k = key then some v else m k

/-- The index expression `m[key]`, which also reads a nil map: the value and
whether the key is present. -/
def TfMap.lookup (m : TfMap) (key : String) : Option Value :=
  match m with
  | none => none
  | some f => f key

namespace Value

/-- A `[]interface{}` stored in an `interface{}`. -/
def ofSlice : Slice Value → Value
  | none => nilSlice
  | some xs => slice xs

/-- A `map[string]interface{}` stored in an `interface{}`. -/
def ofMap : TfMap → Value
  | none => nilMap
  | some m => map m

/-- A `*string` handed to `d.Set`, which dereferences pointers to
non-structs and turns a nil pointer into nil. -/
def ofStringPtr : Option String → Value
  | none => nil
  | some s => str s

/-- An `*int64` handed to `d.Set`. -/
def ofInt64Ptr : Option Int → Value
  | none => nil
  | some n => int64 n

/-- A `*bool` handed to `d.Set`. -/
def ofBoolPtr : Option Bool → Value
  | none => nil
  | some b => bool b

/-- The type assertion `v.(map[string]interface{})` in its two-result form. -/
def assertMap : Value → TfMap × Bool
  | nilMap => (none, true)
  | map m => (some m, true)
  | _ => (none, false)

/-- The type assertion `v.(string)` in its two-result form. -/
def assertString : Option Value → String × Bool
  | some (str s) => (s, true)
  | _ => ("", false)

/-- The type assertion `v.([]interface{})` on a value read from a list
attribute. -/
def toSlice : Value → Slice Value
  | slice xs => some xs
  | _ => none

/-- The type assertion `v.(int)` on a value read from an int attribute. -/
def toInt : Value → Int
  | int n => n
  | _ => 0

/-- The type assertion `v.(bool)` on a value read from a bool attribute. -/
def toBool : Value → Bool
  | bool b => b
  | _ => false

/-- The type assertion `v.(string)` on a value read from a string attribute. -/
def toString : Value → String
  | str s => s
  | _ => ""

/-- The type assertion `v.(*schema.Set)` on a value read from a set attribute,
as the list of its members. -/
def toSet : Value → List String
  | set xs => xs
  | _ => []

end Value

end tf

namespace diag

/-- The severity of a diagnostic. -/
inductive Severity where
  | Error
  | Warning
  deriving DecidableEq, Repr

/-- A `diag.Diagnostic`. -/
structure Diagnostic where
  Severity : Severity
  Summary : String
  Detail : String
  deriving DecidableEq, Repr

/-- The type `diag.Diagnostics`. -/
abbrev Diagnostics := List Diagnostic

end diag

namespace sdkdiag

/-- Modelled from the spec: `sdkdiag.AppendErrorf` (internal/errs/sdkdiag, not
among the sources) surfaces the formatted message to the caller as a fatal
diagnostic; `msg` is the message after formatting. -/
def AppendErrorf (diags : diag.Diagnostics) (msg : String) : diag.Diagnostics :=
  diags ++ [⟨.Error, msg, ""⟩]

end sdkdiag

namespace tfawserr

/-- The function `tfawserr.ErrMessageContains(err, code, message)`: `err` is,
or wraps, an `awserr.Error` with code `code` whose message contains
`message`. -/
def ErrMessageContains : Option GoError → String → String → Bool
  | none, _, _ => false
  | some err, code, message =>
    match err.asAWSErr with
    | some (c, m) => c == code && strings.Contains m message
    | none => false

end tfawserr

namespace tfresource

/-- The loop of `RetryWhenAWSErrMessageContains`: the attempt numbered
`attempt` is made; while it fails with the given code and message and retries
are left, the next attempt follows.  The result is the last error and the
number of attempts made so far. -/
def retryLoop (f : Nat → Option GoError) (code message : String) :
    (retries attempt : Nat) → Option GoError × Nat
  | 0, attempt => (f attempt, attempt + 1)
  | retries + 1, attempt =>
    if tfawserr.ErrMessageContains (f attempt) code message then
      retryLoop f code message retries (attempt + 1)
    else
      (f attempt, attempt + 1)

/-- Modelled from the spec: `tfresource.RetryWhenAWSErrMessageContains`
(internal/tfresource, not among the sources) is the delete path's bounded retry
against a known transient condition.  `f n` is the outcome of the attempt
numbered `n`, `retries` the number of retries that fit into the timeout.  The
result is the error of the last attempt and the number of attempts. -/
def RetryWhenAWSErrMessageContains (retries : Nat) (f : Nat → Option GoError)
    (code message : String) : Option GoError × Nat :=
  retryLoop f code message retries 0

end tfresource

namespace flex

/-- Modelled from the spec: `flex.ExpandStringSet` (internal/flex, not among
the sources) is a one-to-one copy of the members of a set attribute into a
`[]*string`. -/
def ExpandStringSet (set : List String) : tf.Slice (Option String) :=
  some (set.map some)

/-- Modelled from the spec: `flex.FlattenStringSet` (internal/flex, not among
the sources) is a one-to-one, nil-guarded copy of a `[]*string` into a set. -/
def FlattenStringSet (list : tf.Slice (Option String)) : List String :=
  (list.getD []).filterMap id

end flex

/-! ## Redshift Serverless workgroup -/

namespace redshiftserverless

open tf

/-- The SDK constant `redshiftserverless.ErrCodeConflictException`. -/
def ErrCodeConflictException : String := "ConflictException"

/-- The SDK constant `redshiftserverless.ErrCodeResourceNotFoundException`. -/
def ErrCodeResourceNotFoundException : String := "ResourceNotFoundException"

/-- The SDK struct `redshiftserverless.ConfigParameter`. -/
structure ConfigParameter where
  ParameterKey : Option String
  ParameterValue : Option String
  deriving DecidableEq, Repr

/-- The SDK struct `redshiftserverless.NetworkInterface`. -/
structure NetworkInterface where
  AvailabilityZone : Option String
  NetworkInterfaceId : Option String
  PrivateIpAddress : Option String
  SubnetId : Option String
  deriving DecidableEq, Repr

/-- The SDK struct `redshiftserverless.VpcEndpoint`. -/
structure VpcEndpoint where
  NetworkInterfaces : Slice (Option NetworkInterface)
  VpcEndpointId : Option String
  VpcId : Option String
  deriving DecidableEq, Repr

/-- The SDK struct `redshiftserverless.Endpoint`. -/
structure Endpoint where
  Address : Option String
  Port : Option Int
  VpcEndpoints : Slice (Option VpcEndpoint)
  deriving DecidableEq, Repr

/-- The SDK struct `redshiftserverless.Workgroup`, with the fields the
handlers read. -/
structure Workgroup where
  BaseCapacity : Option Int
  ConfigParameters : Slice (Option ConfigParameter)
  Endpoint : Option Endpoint
  EnhancedVpcRouting : Option Bool
  NamespaceName : Option String
  PubliclyAccessible : Option Bool
  SecurityGroupIds : Slice (Option String)
  SubnetIds : Slice (Option String)
  WorkgroupArn : Option String
  WorkgroupId : Option String
  WorkgroupName : Option String
  deriving DecidableEq, Repr

/-- The SDK struct `redshiftserverless.CreateWorkgroupInput`. -/
structure CreateWorkgroupInput where
  BaseCapacity : Option Int
  ConfigParameters : Slice (Option ConfigParameter)
  EnhancedVpcRouting : Option Bool
  NamespaceName : Option String
  PubliclyAccessible : Option Bool
  SecurityGroupIds : Slice (Option String)
  SubnetIds : Slice (Option String)
  Tags : List (String × String)
  WorkgroupName : Option String
  deriving DecidableEq, Repr

/-- The SDK struct `redshiftserverless.UpdateWorkgroupInput`. -/
structure UpdateWorkgroupInput where
  BaseCapacity : Option Int
  ConfigParameters : Slice (Option ConfigParameter)
  EnhancedVpcRouting : Option Bool
  PubliclyAccessible : Option Bool
  SecurityGroupIds : Slice (Option String)
  SubnetIds : Slice (Option String)
  WorkgroupName : Option String
  deriving DecidableEq, Repr

/-- The SDK struct `redshiftserverless.DeleteWorkgroupInput`. -/
structure DeleteWorkgroupInput where
  WorkgroupName : Option String
  deriving DecidableEq, Repr

/-- One block of the `config_parameter` attribute. -/
structure ConfigParameterAttr where
  parameter_key : String
  parameter_value : String
  deriving DecidableEq, Repr

/-- One block of the `network_interface` attribute. -/
structure NetworkInterfaceAttr where
  availability_zone : String
  network_interface_id : String
  private_ip_address : String
  subnet_id : String
  deriving DecidableEq, Repr

/-- One block of the `vpc_endpoint` attribute. -/
structure VpcEndpointAttr where
  network_interface : List NetworkInterfaceAttr
  vpc_endpoint_id : String
  vpc_id : String
  deriving DecidableEq, Repr

/-- One block of the `endpoint` attribute. -/
structure EndpointAttr where
  address : String
  port : Int
  vpc_endpoint : List VpcEndpointAttr
  deriving DecidableEq, Repr

/-- The attributes of the schema of `ResourceWorkgroup`, each with the type the
schema declares for it; an attribute without a value holds the zero value of
its type.  Sets are lists of their members. -/
structure Attributes where
  arn : String
  base_capacity : Int
  config_parameter : List ConfigParameterAttr
  endpoint : List EndpointAttr
  enhanced_vpc_routing : Bool
  namespace_name : String
  publicly_accessible : Bool
  security_group_ids : List String
  subnet_ids : List String
  workgroup_id : String
  workgroup_name : String
  tags : List (String × String)
  tags_all : List (String × String)
  deriving DecidableEq, Repr

/-- The kinds of value of the schema. -/
inductive ValueType where
  | TypeBool
  | TypeInt
  | TypeString
  | TypeList
  | TypeMap
  | TypeSet
  deriving DecidableEq, Repr

/-- The `Type` of each attribute in the schema of `ResourceWorkgroup`. -/
def schemaType : String → Option ValueType
  | "arn" => some .TypeString
  | "base_capacity" => some .TypeInt
  | "config_parameter" => some .TypeList
  | "endpoint" => some .TypeList
  | "enhanced_vpc_routing" => some .TypeBool
  | "namespace_name" => some .TypeString
  | "publicly_accessible" => some .TypeBool
  | "security_group_ids" => some .TypeSet
  | "subnet_ids" => some .TypeSet
  | "workgroup_id" => some .TypeString
  | "workgroup_name" => some .TypeString
  | "tags" => some .TypeMap
  | "tags_all" => some .TypeMap
  | _ => none

/-- The names of the attributes in the schema of `ResourceWorkgroup`. -/
def schemaKeys : List String :=
  ["arn", "base_capacity", "config_parameter", "endpoint", "enhanced_vpc_routing",
   "namespace_name", "publicly_accessible", "security_group_ids", "subnet_ids",
   "workgroup_id", "workgroup_name", "tags", "tags_all"]

/-- Whether the writer of the attribute bag takes `v` for an attribute of type
`t`: nil always (it removes the value), otherwise a value of that kind. -/
def ValueType.accepts : ValueType → Value → Bool
  | _, .nil => true
  | .TypeBool, .bool _ => true
  | .TypeInt, .int _ => true
  | .TypeInt, .int64 _ => true
  | .TypeString, .str _ => true
  | .TypeList, .slice _ => true
  | .TypeList, .nilSlice => true
  | .TypeMap, .map _ => true
  | .TypeMap, .nilMap => true
  | .TypeSet, .set _ => true
  | _, _ => false

/-- Two sets of strings have the same members. -/
def sameMembers (a b : List String) : Bool :=
  a.all (fun x => b.contains x) && b.all (fun x => a.contains x)

namespace Attributes

/-- A `config_parameter` block as `d.Get` returns it. -/
def configParameterValue (c : ConfigParameterAttr) : Value :=
  .map (TfMap.insert (TfMap.insert TfMap.empty "parameter_key" (.str c.parameter_key))
    "parameter_value" (.str c.parameter_value))

/-- A `network_interface` block as `d.Get` returns it. -/
def networkInterfaceValue (n : NetworkInterfaceAttr) : Value :=
  .map (TfMap.insert (TfMap.insert (TfMap.insert (TfMap.insert TfMap.empty
    "availability_zone" (.str n.availability_zone))
    "network_interface_id" (.str n.network_interface_id))
    "private_ip_address" (.str n.private_ip_address))
    "subnet_id" (.str n.subnet_id))

/-- A `vpc_endpoint` block as `d.Get` returns it. -/
def vpcEndpointValue (v : VpcEndpointAttr) : Value :=
  .map (TfMap.insert (TfMap.insert (TfMap.insert TfMap.empty
    "network_interface" (.slice (v.network_interface.map networkInterfaceValue)))
    "vpc_endpoint_id" (.str v.vpc_endpoint_id))
    "vpc_id" (.str v.vpc_id))

/-- An `endpoint` block as `d.Get` returns it. -/
def endpointValue (e : EndpointAttr) : Value :=
  .map (TfMap.insert (TfMap.insert (TfMap.insert TfMap.empty
    "address" (.str e.address))
    "port" (.int e.port))
    "vpc_endpoint" (.slice (e.vpc_endpoint.map vpcEndpointValue)))

/-- A map of tags as `d.Get` returns it. -/
def tagsValue (tags : List (String × String)) : Value :=
  .map (fun k => (tags.lookup k).map Value.str)

/-- The value of the attribute `key` as an `interface{}` of the Go type that
belongs to the schema type; nil for a name that is not in the schema. -/
def get (a : Attributes) : String → Value
  | "arn" => .str a.arn
  | "base_capacity" => .int a.base_capacity
  | "config_parameter" => .slice (a.config_parameter.map configParameterValue)
  | "endpoint" => .slice (a.endpoint.map endpointValue)
  | "enhanced_vpc_routing" => .bool a.enhanced_vpc_routing
  | "namespace_name" => .str a.namespace_name
  | "publicly_accessible" => .bool a.publicly_accessible
  | "security_group_ids" => .set a.security_group_ids
  | "subnet_ids" => .set a.subnet_ids
  | "workgroup_id" => .str a.workgroup_id
  | "workgroup_name" => .str a.workgroup_name
  | "tags" => tagsValue a.tags
  | "tags_all" => tagsValue a.tags_all
  | _ => .nil

/-- Whether the attribute `key` holds something else than the zero value of
its type. -/
def nonZero (a : Attributes) : String → Bool
  | "arn" => a.arn != ""
  | "base_capacity" => a.base_capacity != 0
  | "config_parameter" => !a.config_parameter.isEmpty
  | "endpoint" => !a.endpoint.isEmpty
  | "enhanced_vpc_routing" => a.enhanced_vpc_routing
  | "namespace_name" => a.namespace_name != ""
  | "publicly_accessible" => a.publicly_accessible
  | "security_group_ids" => !a.security_group_ids.isEmpty
  | "subnet_ids" => !a.subnet_ids.isEmpty
  | "workgroup_id" => a.workgroup_id != ""
  | "workgroup_name" => a.workgroup_name != ""
  | "tags" => !a.tags.isEmpty
  | "tags_all" => !a.tags_all.isEmpty
  | _ => false

/-- Whether the attribute `key` has the same value in `a` and `b`; sets are
compared by their members, maps by their entries. -/
def same (a b : Attributes) : String → Bool
  | "arn" => a.arn == b.arn
  | "base_capacity" => a.base_capacity == b.base_capacity
  | "config_parameter" => a.config_parameter == b.config_parameter
  | "endpoint" => a.endpoint == b.endpoint
  | "enhanced_vpc_routing" => a.enhanced_vpc_routing == b.enhanced_vpc_routing
  | "namespace_name" => a.namespace_name == b.namespace_name
  | "publicly_accessible" => a.publicly_accessible == b.publicly_accessible
  | "security_group_ids" => sameMembers a.security_group_ids b.security_group_ids
  | "subnet_ids" => sameMembers a.subnet_ids b.subnet_ids
  | "workgroup_id" => a.workgroup_id == b.workgroup_id
  | "workgroup_name" => a.workgroup_name == b.workgroup_name
  | "tags" => a.tags.all (fun kv => b.tags.lookup kv.1 == some kv.2) &&
      b.tags.all (fun kv => a.tags.lookup kv.1 == some kv.2)
  | "tags_all" => a.tags_all.all (fun kv => b.tags_all.lookup kv.1 == some kv.2) &&
      b.tags_all.all (fun kv => a.tags_all.lookup kv.1 == some kv.2)
  | _ => true

end Attributes

/-- The `*schema.ResourceData` of a workgroup.  `state` holds the attribute
values of the prior state, `plan` the values the handler reads (the state
overlaid with the planned changes), `written` what the handler has stored with
`d.Set` so far.  The handlers read attributes only before their first write,
so reads go to `plan`. -/
structure ResourceData where
  id : String
  isNewResource : Bool
  state : Attributes
  plan : Attributes
  written : String → Option Value

namespace ResourceData

/-- The method `d.Id()`. -/
def Id (d : ResourceData) : String := d.id

/-- The method `d.SetId(v)`. -/
def SetId (d : ResourceData) (v : String) : ResourceData := { d with id := v }

/-- The method `d.IsNewResource()`. -/
def IsNewResource (d : ResourceData) : Bool := d.isNewResource

/-- The method `d.Get(key)`. -/
def Get (d : ResourceData) (key : String) : Value := d.plan.get key

/-- The method `d.GetOk(key)`: the value, and whether it is set to something
else than the zero value of its type. -/
def GetOk (d : ResourceData) (key : String) : Value × Bool :=
  (d.plan.get key, d.plan.nonZero key)

/-- The method `d.HasChange(key)`: prior and planned value differ. -/
def HasChange (d : ResourceData) (key : String) : Bool :=
  !d.state.same d.plan key

/-- The method `d.HasChangesExcept(keys...)`: some attribute that is not
among `keys` has a change. -/
def HasChangesExcept (d : ResourceData) (keys : List String) : Bool :=
  schemaKeys.any (fun attr => !keys.contains attr && d.HasChange attr)

/-- The method `d.Set(key, value)`, after the dereferencing of pointers: the
value is stored when the attribute is in the schema and its type takes the
value; otherwise nothing is stored and an error is returned. -/
def Set (d : ResourceData) (key : String) (value : Value) : ResourceData × Option GoError :=
  match schemaType key with
  | none => (d, some (.errorf ("Invalid address to set: " ++ key)))
  | some t =>
    if t.accepts value then
      ({ d with written := fun k => if k = key then some value else d.written k }, none)
    else
      (d, some (.errorf (key ++ ": unconvertible type")))

end ResourceData

/-- A remote operation issued through the Redshift Serverless connection. -/
inductive Call where
  | CreateWorkgroup (input : CreateWorkgroupInput)
  | UpdateWorkgroup (input : UpdateWorkgroupInput)
  | DeleteWorkgroup (input : DeleteWorkgroupInput)
  | FindWorkgroupByName (name : String)
  | waitWorkgroupAvailable (name : String)
  | waitWorkgroupDeleted (name : String)
  deriving DecidableEq, Repr

/-- The answers of the remote side.  The API methods live in the SDK, the
finder and the waiters in files of the package that are not among the sources.
`DeleteWorkgroup` is the only operation a handler repeats, so its answer also
depends on the number of the attempt; `deleteRetries` is the number of
retries that fit into the ten minutes the delete handler allows. -/
structure Conn where
  CreateWorkgroup : CreateWorkgroupInput → Except GoError Workgroup
  UpdateWorkgroup : UpdateWorkgroupInput → Option GoError
  DeleteWorkgroup : (attempt : Nat) → DeleteWorkgroupInput → Option GoError
  deleteRetries : Nat
  FindWorkgroupByName : (name : String) → Except GoError Workgroup
  waitWorkgroupAvailable : (name : String) → Option GoError
  waitWorkgroupDeleted : (name : String) → Option GoError

/-- What a handler leaves behind: the resource data, the remote calls it made
in order, and the diagnostics it returns. -/
structure Outcome where
  data : ResourceData
  calls : List Call
  diags : diag.Diagnostics

/-- The function `expandConfigParameter`. -/
def expandConfigParameter (tfMap : TfMap) : Option ConfigParameter :=
  match tfMap with
  | none => none
  | some _ =>
    let apiObject : ConfigParameter := ⟨none, none⟩
    let apiObject :=
      match Value.assertString (TfMap.lookup tfMap "parameter_key") with
      | (v, true) => { apiObject with ParameterKey := some v }
      | (_, false) => apiObject
    let apiObject :=
      match Value.assertString (TfMap.lookup tfMap "parameter_value") with
      | (v, true) => { apiObject with ParameterValue := some v }
      | (_, false) => apiObject
    some apiObject

/-- The function `expandConfigParameters`. -/
def expandConfigParameters (tfList : Slice Value) : Slice (Option ConfigParameter) :=
  if Slice.len tfList = 0 then none
  else
    (tfList.getD []).foldl
      (fun (apiObjects : Slice (Option ConfigParameter)) tfMapRaw =>
        match Value.assertMap tfMapRaw with
        | (_, false) => apiObjects
        | (tfMap, true) =>
          match expandConfigParameter tfMap with
          | none => apiObjects
          | some apiObject => Slice.append apiObjects (some apiObject))
      none

/-- The request entry that a `config_parameter` block expands to. -/
def expandedBlock (c : ConfigParameterAttr) : Option ConfigParameter :=
  some ⟨some c.parameter_key, some c.parameter_value⟩

/-- The function `flattenConfigParameter`. -/
def flattenConfigParameter (apiObject : Option ConfigParameter) : TfMap :=
  match apiObject with
  | none => none
  | some apiObject =>
    let tfMap := TfMap.empty
    let tfMap :=
      if apiObject.ParameterKey ≠ none then
        TfMap.insert tfMap "parameter_key" (.str (aws.StringValue apiObject.ParameterKey))
      else tfMap
    let tfMap :=
      if apiObject.ParameterValue ≠ none then
        TfMap.insert tfMap "parameter_value" (.str (aws.StringValue apiObject.ParameterValue))
      else tfMap
    some tfMap

/-- The function `flattenConfigParameters`. -/
def flattenConfigParameters (apiObjects : Slice (Option ConfigParameter)) : Slice Value :=
  if Slice.len apiObjects = 0 then none
  else
    (apiObjects.getD []).foldl
      (fun (tfList : Slice Value) apiObject =>
        match apiObject with
        | none => tfList
        | some _ => Slice.append tfList (Value.ofMap (flattenConfigParameter apiObject)))
      none

/-- The function `flattenNetworkInterface`. -/
def flattenNetworkInterface (apiObject : Option NetworkInterface) : TfMap :=
  match apiObject with
  | none => none
  | some apiObject =>
    let tfMap := TfMap.empty
    let tfMap :=
      if apiObject.AvailabilityZone ≠ none then
        TfMap.insert tfMap "availability_zone" (.str (aws.StringValue apiObject.AvailabilityZone))
      else tfMap
    let tfMap :=
      if apiObject.NetworkInterfaceId ≠ none then
        TfMap.insert tfMap "network_interface_id"
          (.str (aws.StringValue apiObject.NetworkInterfaceId))
      else tfMap
    let tfMap :=
      if apiObject.PrivateIpAddress ≠ none then
        TfMap.insert tfMap "private_ip_address" (.str (aws.StringValue apiObject.PrivateIpAddress))
      else tfMap
    let tfMap :=
      if apiObject.SubnetId ≠ none then
        TfMap.insert tfMap "subnet_id" (.str (aws.StringValue apiObject.SubnetId))
      else tfMap
    some tfMap

/-- The function `flattenNetworkInterfaces`. -/
def flattenNetworkInterfaces (apiObjects : Slice (Option NetworkInterface)) : Slice Value :=
  if Slice.len apiObjects = 0 then none
  else
    (apiObjects.getD []).foldl
      (fun (tfList : Slice Value) apiObject =>
        match apiObject with
        | none => tfList
        | some _ => Slice.append tfList (Value.ofMap (flattenNetworkInterface apiObject)))
      none

/-- The function `flattenVPCEndpoint`. -/
def flattenVPCEndpoint (apiObject : Option VpcEndpoint) : TfMap :=
  match apiObject with
  | none => none
  | some apiObject =>
    let tfMap := TfMap.empty
    let tfMap :=
      if apiObject.VpcEndpointId ≠ none then
        TfMap.insert tfMap "vpc_endpoint_id" (.str (aws.StringValue apiObject.VpcEndpointId))
      else tfMap
    let tfMap :=
      if apiObject.VpcId ≠ none then
        TfMap.insert tfMap "vpc_id" (.str (aws.StringValue apiObject.VpcId))
      else tfMap
    let tfMap :=
      if apiObject.NetworkInterfaces ≠ none then
        TfMap.insert tfMap "network_interface"
          (Value.ofSlice (flattenNetworkInterfaces apiObject.NetworkInterfaces))
      else tfMap
    some tfMap

/-- The function `flattenVPCEndpoints`. -/
def flattenVPCEndpoints (apiObjects : Slice (Option VpcEndpoint)) : Slice Value :=
  if Slice.len apiObjects = 0 then none
  else
    (apiObjects.getD []).foldl
      (fun (tfList : Slice Value) apiObject =>
        match apiObject with
        | none => tfList
        | some _ => Slice.append tfList (Value.ofMap (flattenVPCEndpoint apiObject)))
      none

/-- The function `flattenEndpoint`. -/
def flattenEndpoint (apiObject : Option Endpoint) : TfMap :=
  match apiObject with
  | none => none
  | some apiObject =>
    let tfMap := TfMap.empty
    let tfMap :=
      if apiObject.Address ≠ none then
        TfMap.insert tfMap "address" (.str (aws.StringValue apiObject.Address))
      else tfMap
    let tfMap :=
      if apiObject.Port ≠ none then
        TfMap.insert tfMap "port" (.int64 (aws.Int64Value apiObject.Port))
      else tfMap
    let tfMap :=
      if apiObject.VpcEndpoints ≠ none then
        TfMap.insert tfMap "vpc_endpoint"
          (Value.ofSlice (flattenVPCEndpoints apiObject.VpcEndpoints))
      else tfMap
    some tfMap

/-- The handler `resourceWorkgroupRead`. -/
def resourceWorkgroupRead (conn : Conn) (d : ResourceData) : Outcome :=
  let diags : diag.Diagnostics := []
  let calls := [Call.FindWorkgroupByName d.Id]
  match conn.FindWorkgroupByName d.Id with
  | .error err =>
    if !d.IsNewResource && tfresource.NotFound (some err) then
      ⟨d.SetId "", calls, diags⟩
    else
      ⟨d, calls, sdkdiag.AppendErrorf diags
        ("reading Redshift Serverless Workgroup (" ++ d.Id ++ "): " ++ err.Error)⟩
  | .ok out =>
    let arn := aws.StringValue out.WorkgroupArn
    let d := (d.Set "arn" (.str arn)).1
    let d := (d.Set "base_capacity" (Value.ofInt64Ptr out.BaseCapacity)).1
    match d.Set "config_parameter"
        (Value.ofSlice (flattenConfigParameters out.ConfigParameters)) with
    | (d, some err) =>
      ⟨d, calls, sdkdiag.AppendErrorf diags ("setting config_parameter: " ++ err.Error)⟩
    | (d, none) =>
      match d.Set "endpoint" (.slice [Value.ofMap (flattenEndpoint out.Endpoint)]) with
      | (d, some err) =>
        ⟨d, calls, sdkdiag.AppendErrorf diags ("setting endpoint: " ++ err.Error)⟩
      | (d, none) =>
        let d := (d.Set "enhanced_vpc_routing" (Value.ofBoolPtr out.EnhancedVpcRouting)).1
        let d := (d.Set "namespace_name" (Value.ofStringPtr out.NamespaceName)).1
        let d := (d.Set "publicly_accessible" (Value.ofBoolPtr out.PubliclyAccessible)).1
        let d := (d.Set "security_group_ids"
          (.set (flex.FlattenStringSet out.SecurityGroupIds))).1
        let d := (d.Set "subnet_ids" (.set (flex.FlattenStringSet out.SubnetIds))).1
        let d := (d.Set "workgroup_id" (Value.ofStringPtr out.WorkgroupId)).1
        let d := (d.Set "workgroup_name" (Value.ofStringPtr out.WorkgroupName)).1
        ⟨d, calls, diags⟩

/-- The request that `resourceWorkgroupCreate` builds before its API call
(the statements from the declaration of `input` up to the call).  `tagsIn` is
the result of `GetTagsIn(ctx)`. -/
def createWorkgroupInput (tagsIn : List (String × String)) (d : ResourceData) :
    CreateWorkgroupInput :=
  let name := (d.Get "workgroup_name").toString
  let input : CreateWorkgroupInput :=
    { BaseCapacity := none, ConfigParameters := none, EnhancedVpcRouting := none,
      NamespaceName := some (d.Get "namespace_name").toString,
      PubliclyAccessible := none, SecurityGroupIds := none, SubnetIds := none,
      Tags := tagsIn, WorkgroupName := some name }
  let input :=
    match d.GetOk "base_capacity" with
    | (v, true) => { input with BaseCapacity := some v.toInt }
    | (_, false) => input
  let input :=
    match d.GetOk "config_parameter" with
    | (v, true) =>
      if Slice.len v.toSlice > 0 then
        { input with ConfigParameters := expandConfigParameters v.toSlice }
      else input
    | (_, false) => input
  let input :=
    match d.GetOk "enhanced_vpc_routing" with
    | (v, true) => { input with EnhancedVpcRouting := some v.toBool }
    | (_, false) => input
  let input :=
    match d.GetOk "publicly_accessible" with
    | (v, true) => { input with PubliclyAccessible := some v.toBool }
    | (_, false) => input
  let input :=
    match d.GetOk "security_group_ids" with
    | (v, true) =>
      if v.toSet.length > 0 then
        { input with SecurityGroupIds := flex.ExpandStringSet v.toSet }
      else input
    | (_, false) => input
  let input :=
    match d.GetOk "subnet_ids" with
    | (v, true) =>
      if v.toSet.length > 0 then { input with SubnetIds := flex.ExpandStringSet v.toSet }
      else input
    | (_, false) => input
  input

/-- The handler `resourceWorkgroupCreate`. -/
def resourceWorkgroupCreate (tagsIn : List (String × String)) (conn : Conn)
    (d : ResourceData) : Outcome :=
  let diags : diag.Diagnostics := []
  let name := (d.Get "workgroup_name").toString
  let input := createWorkgroupInput tagsIn d
  let calls := [Call.CreateWorkgroup input]
  match conn.CreateWorkgroup input with
  | .error err =>
    ⟨d, calls, sdkdiag.AppendErrorf diags
      ("creating Redshift Serverless Workgroup (" ++ name ++ "): " ++ err.Error)⟩
  | .ok output =>
    let d := d.SetId (aws.StringValue output.WorkgroupName)
    let calls := calls ++ [Call.waitWorkgroupAvailable d.Id]
    match conn.waitWorkgroupAvailable d.Id with
    | some err =>
      ⟨d, calls, sdkdiag.AppendErrorf diags
        ("waiting for Redshift Serverless Workgroup (" ++ d.Id ++ ") create: " ++ err.Error)⟩
    | none =>
      let r := resourceWorkgroupRead conn d
      ⟨r.data, calls ++ r.calls, diags ++ r.diags⟩

/-- The request that `resourceWorkgroupUpdate` builds inside its
`HasChangesExcept` branch (the statements from the declaration of `input` up
to the call). -/
def updateWorkgroupInput (d : ResourceData) : UpdateWorkgroupInput :=
  let input : UpdateWorkgroupInput :=
    { BaseCapacity := none, ConfigParameters := none, EnhancedVpcRouting := none,
      PubliclyAccessible := none, SecurityGroupIds := none, SubnetIds := none,
      WorkgroupName := some d.Id }
  let input :=
    match d.GetOk "base_capacity" with
    | (v, true) => { input with BaseCapacity := some v.toInt }
    | (_, false) => input
  let input :=
    match d.GetOk "config_parameter" with
    | (v, true) =>
      if Slice.len v.toSlice > 0 then
        { input with ConfigParameters := expandConfigParameters v.toSlice }
      else input
    | (_, false) => input
  let input :=
    match d.GetOk "enhanced_vpc_routing" with
    | (v, true) => { input with EnhancedVpcRouting := some v.toBool }
    | (_, false) => input
  let input :=
    match d.GetOk "publicly_accessible" with
    | (v, true) => { input with PubliclyAccessible := some v.toBool }
    | (_, false) => input
  let input :=
    match d.GetOk "security_group_ids" with
    | (v, true) =>
      if v.toSet.length > 0 then
        { input with SecurityGroupIds := flex.ExpandStringSet v.toSet }
      else input
    | (_, false) => input
  let input :=
    match d.GetOk "subnet_ids" with
    | (v, true) =>
      if v.toSet.length > 0 then { input with SubnetIds := flex.ExpandStringSet v.toSet }
      else input
    | (_, false) => input
  input

/-- The handler `resourceWorkgroupUpdate`. -/
def resourceWorkgroupUpdate (conn : Conn) (d : ResourceData) : Outcome :=
  let diags : diag.Diagnostics := []
  if d.HasChangesExcept ["tags", "tags_all"] then
    let input := updateWorkgroupInput d
    let calls := [Call.UpdateWorkgroup input]
    match conn.UpdateWorkgroup input with
    | some err =>
      ⟨d, calls, sdkdiag.AppendErrorf diags
        ("updating Redshift Serverless Workgroup (" ++ d.Id ++ "): " ++ err.Error)⟩
    | none =>
      let calls := calls ++ [Call.waitWorkgroupAvailable d.Id]
      match conn.waitWorkgroupAvailable d.Id with
      | some err =>
        ⟨d, calls, sdkdiag.AppendErrorf diags
          ("waiting for Redshift Serverless Workgroup (" ++ d.Id ++ ") update: " ++ err.Error)⟩
      | none =>
        let r := resourceWorkgroupRead conn d
        ⟨r.data, calls ++ r.calls, diags ++ r.diags⟩
  else
    let r := resourceWorkgroupRead conn d
    ⟨r.data, r.calls, diags ++ r.diags⟩

/-- The handler `resourceWorkgroupDelete`. -/
def resourceWorkgroupDelete (conn : Conn) (d : ResourceData) : Outcome :=
  let diags : diag.Diagnostics := []
  let input : DeleteWorkgroupInput := { WorkgroupName := some d.Id }
  let (err, attempts) := tfresource.RetryWhenAWSErrMessageContains conn.deleteRetries
    (fun attempt => conn.DeleteWorkgroup attempt input)
    ErrCodeConflictException "operation running"
  let calls := List.replicate attempts (Call.DeleteWorkgroup input)
  if tfawserr.ErrCodeEquals err ErrCodeResourceNotFoundException then
    ⟨d, calls, diags⟩
  else
    match err with
    | some err =>
      ⟨d, calls, sdkdiag.AppendErrorf diags
        ("deleting Redshift Serverless Workgroup (" ++ d.Id ++ "): " ++ err.Error)⟩
    | none =>
      let calls := calls ++ [Call.waitWorkgroupDeleted d.Id]
      match conn.waitWorkgroupDeleted d.Id with
      | some err =>
        ⟨d, calls, sdkdiag.AppendErrorf diags
          ("waiting for Redshift Serverless Workgroup (" ++ d.Id ++ ") delete: " ++ err.Error)⟩
      | none => ⟨d, calls, diags⟩

/-- The number of `DeleteWorkgroup` calls that `resourceWorkgroupDelete`
issues, counted in the calls of its outcome. -/
def deleteAttempts (conn : Conn) (d : ResourceData) : Nat :=
  (resourceWorkgroupDelete conn d).calls.count (Call.DeleteWorkgroup ⟨some d.Id⟩)

end redshiftserverless

/-! ## Example inputs -/

namespace Examples

/-- An EC2 connection on which every call succeeds and the finder returns the
association `assoc`. -/
def ec2ConnOk (assoc : ec2.TransitGatewayPolicyTableAssociation) : ec2.Conn :=
  { AssociateTransitGatewayPolicyTable := fun _ _ => none
    DisassociateTransitGatewayPolicyTable := fun _ _ => none
    WaitTransitGatewayPolicyTableAssociationCreated := fun _ _ => none
    WaitTransitGatewayPolicyTableAssociationDeleted := fun _ _ => none
    FindTransitGatewayPolicyTableAssociationByTwoPartKey := fun _ _ => .ok assoc }

/-- An EC2 connection on which the API calls fail with `e` and the finder
reports that nothing was found. -/
def ec2ConnFail (e : GoError) : ec2.Conn :=
  { AssociateTransitGatewayPolicyTable := fun _ _ => some e
    DisassociateTransitGatewayPolicyTable := fun _ _ => some e
    WaitTransitGatewayPolicyTableAssociationCreated := fun _ _ => some e
    WaitTransitGatewayPolicyTableAssociationDeleted := fun _ _ => some e
    FindTransitGatewayPolicyTableAssociationByTwoPartKey := fun _ _ =>
      .error (.notFound "couldn't find resource") }

/-- An association as the API describes it. -/
def assoc1 : ec2.TransitGatewayPolicyTableAssociation :=
  { ResourceId := some "vpc-1", ResourceType := some "vpc", State := some "associated",
    TransitGatewayAttachmentId := some "tgw-attach-1",
    TransitGatewayPolicyTableId := some "tgw-ptb-1" }

/-- Resource data of the EC2 resource with the given identifier and mark and
the two configured attributes. -/
def ec2Data (id : String) (isNew : Bool) (policyTableID attachmentID : String) :
    ec2.ResourceData :=
  { id := id, isNewResource := isNew,
    attrs := fun k =>
      if k = "transit_gateway_policy_table_id" then policyTableID
      else if k = "transit_gateway_attachment_id" then attachmentID
      else "" }

/-- Attribute values of a workgroup with a base capacity of 128 and nothing
else configured. -/
def attrs1 : redshiftserverless.Attributes :=
  { arn := "arn:aws:redshift-serverless:us-east-1:123456789012:workgroup/wg-id",
    base_capacity := 128, config_parameter := [], endpoint := [],
    enhanced_vpc_routing := false, namespace_name := "ns", publicly_accessible := false,
    security_group_ids := [], subnet_ids := [], workgroup_id := "wg-id",
    workgroup_name := "wg", tags := [], tags_all := [] }

/-- The values of `attrs1` with `publicly_accessible` switched on. -/
def attrs2 : redshiftserverless.Attributes :=
  { attrs1 with publicly_accessible := true }

/-- The values of `attrs1` with `enhanced_vpc_routing` switched on and one
security group. -/
def attrs3 : redshiftserverless.Attributes :=
  { attrs1 with enhanced_vpc_routing := true, security_group_ids := ["sg-1"] }

/-- The values of `attrs1` with one more tag. -/
def attrs4 : redshiftserverless.Attributes :=
  { attrs1 with tags := [("k1", "v1")], tags_all := [("k1", "v1")] }

/-- The attribute values of a workgroup that does not exist yet. -/
def attrs0 : redshiftserverless.Attributes :=
  { arn := "", base_capacity := 0, config_parameter := [], endpoint := [],
    enhanced_vpc_routing := false, namespace_name := "", publicly_accessible := false,
    security_group_ids := [], subnet_ids := [], workgroup_id := "", workgroup_name := "",
    tags := [], tags_all := [] }

/-- A configuration for a new workgroup with two config parameters, public
access and two subnets. -/
def attrs5 : redshiftserverless.Attributes :=
  { attrs0 with
    config_parameter := [⟨"datestyle", "ISO, MDY"⟩, ⟨"query_group", "default"⟩],
    namespace_name := "ns", publicly_accessible := true,
    subnet_ids := ["subnet-1", "subnet-2"], workgroup_name := "wg-new" }

/-- Resource data as Create receives it: no identifier, marked new, no prior
state. -/
def wgNewData (plan : redshiftserverless.Attributes) : redshiftserverless.ResourceData :=
  { id := "", isNewResource := true, state := attrs0, plan := plan,
    written := fun _ => none }

/-- Resource data of the workgroup `wg` with the given mark, prior state and
planned values, and nothing written yet. -/
def wgData (isNew : Bool) (state plan : redshiftserverless.Attributes) :
    redshiftserverless.ResourceData :=
  { id := "wg", isNewResource := isNew, state := state, plan := plan,
    written := fun _ => none }

/-- A workgroup as the API describes it. -/
def workgroup1 : redshiftserverless.Workgroup :=
  { BaseCapacity := some 128, ConfigParameters := none, Endpoint := none,
    EnhancedVpcRouting := some false, NamespaceName := some "ns",
    PubliclyAccessible := some true, SecurityGroupIds := none, SubnetIds := none,
    WorkgroupArn := some "arn:aws:redshift-serverless:us-east-1:123456789012:workgroup/wg-id",
    WorkgroupId := some "wg-id", WorkgroupName := some "wg" }

/-- A Redshift Serverless connection on which create, update and the waiters
succeed, `DeleteWorkgroup` answers `delete` and the finder answers `find`. -/
def wgConn (delete : Nat → Option GoError)
    (find : Except GoError redshiftserverless.Workgroup) : redshiftserverless.Conn :=
  { CreateWorkgroup := fun _ => .ok workgroup1
    UpdateWorkgroup := fun _ => none
    DeleteWorkgroup := fun attempt _ => delete attempt
    deleteRetries := 3
    FindWorkgroupByName := fun _ => find
    waitWorkgroupAvailable := fun _ => none
    waitWorkgroupDeleted := fun _ => none }

/-- Answers of `DeleteWorkgroup`: the first attempt meets a running
operation, the second is refused for another reason, later ones succeed. -/
def deleteAnswers : Nat → Option GoError
  | 0 => some (.awserr "ConflictException"
      "There is an operation running on the workgroup. Try deleting the workgroup again later.")
  | 1 => some (.awserr "ValidationException" "bad name")
  | _ => none

end Examples

/-! ## Splitting on the separator -/

namespace strings

theorem splitChars_ne_nil (sep s : List Char) (skip : Nat) : splitChars sep s skip ≠ [] := by
  induction s generalizing skip with
  | nil => simp [splitChars]
  | cons c cs ih =>
    cases skip with
    | succ n => simpa [splitChars] using ih n
    | zero =>
      simp only [splitChars]
      split
      · simp
      · split <;> simp

/-- A text without the separator character is a single part. -/
theorem splitChars_of_not_mem (c : Char) (s : List Char) (h : c ∉ s) :
    splitChars [c] s 0 = [s] := by
  induction s with
  | nil => simp [splitChars]
  | cons x xs ih =>
    have hx : c ≠ x := fun e => h (by simp [e])
    have hxs : c ∉ xs := fun e => h (by simp [e])
    simp [splitChars, ih hxs, hx]

/-- The first part ends at the first separator character. -/
theorem splitChars_append_sep (c : Char) (p rest : List Char) (h : c ∉ p) :
    splitChars [c] (p ++ c :: rest) 0 = p :: splitChars [c] rest 0 := by
  induction p with
  | nil => simp [splitChars]
  | cons x xs ih =>
    have hx : c ≠ x := fun e => h (by simp [e])
    have hxs : c ∉ xs := fun e => h (by simp [e])
    simp [splitChars, ih hxs, hx]

/-- There is one part more than there are separator characters. -/
theorem splitChars_length (c : Char) (s : List Char) :
    (splitChars [c] s 0).length = s.count c + 1 := by
  induction s with
  | nil => simp [splitChars]
  | cons x xs ih =>
    by_cases hx : c = x
    · subst hx
      simp [splitChars, ih]
    · have hx2 : (x == c) = false := by
        simp only [beq_eq_false_iff_ne, ne_eq]
        exact fun e => hx e.symm
      simp only [splitChars, List.isPrefixOf, hx, beq_iff_eq, Bool.and_true]
      rw [List.count_cons, hx2]
      cases hs : splitChars [c] xs 0 with
      | nil => exact absurd hs (splitChars_ne_nil _ _ _)
      | cons q qs =>
        rw [hs] at ih
        simpa using ih

end strings

/-! ## The composite identifier -/

namespace ec2

theorem split_separator (id : String) :
    strings.Split id transitGatewayPolicyTableAssociationIDSeparator =
      (strings.splitChars ['_'] id.data 0).map String.mk := by
  have h : ¬ (transitGatewayPolicyTableAssociationIDSeparator = "") := by decide
  simp only [strings.Split, if_neg h]
  rfl

theorem createResourceID_eq (p a : String) :
    TransitGatewayPolicyTableAssociationCreateResourceID p a = p ++ "_" ++ a := by
  simp [TransitGatewayPolicyTableAssociationCreateResourceID, strings.Join,
    transitGatewayPolicyTableAssociationIDSeparator, String.intercalate, String.intercalate.go]

theorem createResourceID_data (p a : String) :
    (TransitGatewayPolicyTableAssociationCreateResourceID p a).data = p.data ++ '_' :: a.data := by
  rw [createResourceID_eq]
  simp [String.data_append]

/-- Parsing the identifier built from two separator-free, non-empty parts
gives the parts back. -/
theorem parse_create (p a : String) (hp : p ≠ "") (ha : a ≠ "")
    (hpu : '_' ∉ p.data) (hau : '_' ∉ a.data) :
    TransitGatewayPolicyTableAssociationParseResourceID
      (TransitGatewayPolicyTableAssociationCreateResourceID p a) = (p, a, none) := by
  have hs : strings.Split (TransitGatewayPolicyTableAssociationCreateResourceID p a)
      transitGatewayPolicyTableAssociationIDSeparator = [p, a] := by
    rw [split_separator, createResourceID_data, strings.splitChars_append_sep _ _ _ hpu,
      strings.splitChars_of_not_mem _ _ hau]
    rfl
  simp [TransitGatewayPolicyTableAssociationParseResourceID, hs, hp, ha]

/-- An identifier that does not split into two parts is rejected. -/
theorem parse_of_length_ne (id : String)
    (h : (strings.Split id transitGatewayPolicyTableAssociationIDSeparator).length ≠ 2) :
    TransitGatewayPolicyTableAssociationParseResourceID id =
      ("", "", some (unexpectedFormatError id)) := by
  simp [TransitGatewayPolicyTableAssociationParseResourceID, h]

/-- The parser either rejects the identifier with the formatting error or
returns no error. -/
theorem parse_cases (id : String) :
    (TransitGatewayPolicyTableAssociationParseResourceID id).2.2 = none ∨
    TransitGatewayPolicyTableAssociationParseResourceID id =
      ("", "", some (unexpectedFormatError id)) := by
  unfold TransitGatewayPolicyTableAssociationParseResourceID
  simp only []
  split
  · exact Or.inl rfl
  · exact Or.inr rfl

end ec2

/-! ## The handlers of the association resource -/

namespace ec2

theorem set_id (d : ResourceData) (key : String) (value : SetValue) :
    (d.Set key value).1.id = d.id := by
  unfold ResourceData.Set
  split
  · split <;> rfl
  · rfl

/-- Read on an identifier that parses calls the finder with the parsed keys
and nothing else. -/
theorem read_calls_of_parse (conn : Conn) (d : ResourceData) (p a : String)
    (hparse : TransitGatewayPolicyTableAssociationParseResourceID d.Id = (p, a, none)) :
    (ResourceTransitGatewayPolicyTableAssociationRead conn d).calls =
      [Call.FindTransitGatewayPolicyTableAssociationByTwoPartKey p a] := by
  simp only [ResourceTransitGatewayPolicyTableAssociationRead, hparse]
  cases conn.FindTransitGatewayPolicyTableAssociationByTwoPartKey p a with
  | error e => simp only []; split <;> rfl
  | ok v => rfl

/-- Read on an identifier that parses never returns a bare formatting error. -/
theorem read_err_of_parse (conn : Conn) (d : ResourceData) (p a : String)
    (hparse : TransitGatewayPolicyTableAssociationParseResourceID d.Id = (p, a, none))
    (msg : String) :
    (ResourceTransitGatewayPolicyTableAssociationRead conn d).err ≠ some (.errorf msg) := by
  simp only [ResourceTransitGatewayPolicyTableAssociationRead, hparse]
  cases conn.FindTransitGatewayPolicyTableAssociationByTwoPartKey p a with
  | error e => simp only []; split <;> simp
  | ok v => simp

/-- A successful Read of a resource marked new keeps the identifier. -/
theorem read_id_of_success (conn : Conn) (d : ResourceData) (hnew : d.IsNewResource = true)
    (hok : (ResourceTransitGatewayPolicyTableAssociationRead conn d).err = none) :
    (ResourceTransitGatewayPolicyTableAssociationRead conn d).data.id = d.id := by
  rcases parse_cases d.Id with h | h
  · rcases hpa : TransitGatewayPolicyTableAssociationParseResourceID d.Id with ⟨p, a, e⟩
    rw [hpa] at h
    simp only at h
    subst h
    revert hok
    simp only [ResourceTransitGatewayPolicyTableAssociationRead, hpa]
    cases conn.FindTransitGatewayPolicyTableAssociationByTwoPartKey p a with
    | error e => simp [hnew]
    | ok v => simp [set_id]
  · revert hok
    simp [ResourceTransitGatewayPolicyTableAssociationRead, h]

end ec2

/-! ## The retried delete call -/

namespace tfresource

/-- An attempt whose error is not the awaited one ends the loop. -/
theorem retryLoop_stop (f : Nat → Option GoError) (code message : String)
    (retries attempt : Nat)
    (h : tfawserr.ErrMessageContains (f attempt) code message = false) :
    retryLoop f code message retries attempt = (f attempt, attempt + 1) := by
  cases retries with
  | zero => rfl
  | succ n => simp [retryLoop, h]

end tfresource

namespace redshiftserverless

/-- A ResourceNotFoundException is not the conflict the delete call is
retried on. -/
theorem not_retryable_of_not_found (err : Option GoError) (message : String)
    (h : tfawserr.ErrCodeEquals err ErrCodeResourceNotFoundException = true) :
    tfawserr.ErrMessageContains err ErrCodeConflictException message = false := by
  cases err with
  | none => rfl
  | some e =>
    simp only [tfawserr.ErrCodeEquals, tfawserr.ErrMessageContains] at h ⊢
    cases hx : e.asAWSErr with
    | none => rfl
    | some cm =>
      rw [hx] at h
      simp only [beq_iff_eq] at h
      have hne : ¬ (ErrCodeResourceNotFoundException = ErrCodeConflictException) := by decide
      have : (cm.1 == ErrCodeConflictException) = false := by
        simp only [beq_eq_false_iff_ne, ne_eq, h]
        exact hne
      simp [this]

end redshiftserverless

/-! ## Claims about the composite identifier -/

section AssociationClaims

open ec2

/-- C1: an identifier whose split on `_` does not yield exactly two parts (it
has no `_`, or two or more) is rejected by
`TransitGatewayPolicyTableAssociationParseResourceID`: the result is the
formatting error together with two empty strings. -/
theorem C1_parse_rejects_wrong_part_count (id : String)
    (h : (strings.Split id transitGatewayPolicyTableAssociationIDSeparator).length ≠ 2) :
    TransitGatewayPolicyTableAssociationParseResourceID id =
        ("", "", some (unexpectedFormatError id)) ∧
      (id.data.count '_' = 0 ∨ 2 ≤ id.data.count '_') := by
  refine ⟨parse_of_length_ne id h, ?_⟩
  rw [split_separator, List.length_map, strings.splitChars_length] at h
  omega

theorem C1_parse_rejects_wrong_part_count_witness :
    (strings.Split "a_b_c" transitGatewayPolicyTableAssociationIDSeparator).length ≠ 2 ∧
    (TransitGatewayPolicyTableAssociationParseResourceID "a_b_c" =
        ("", "", some (unexpectedFormatError "a_b_c")) ∧
      (("a_b_c" : String).data.count '_' = 0 ∨ 2 ≤ ("a_b_c" : String).data.count '_')) :=
  ⟨by decide, C1_parse_rejects_wrong_part_count "a_b_c" (by decide)⟩

/-- C2: round trip of the identifier.  For non-empty `p` and `a` that do not
contain `_`, parsing the identifier created from `(p, a)` returns `(p, a)`
with a nil error. -/
theorem C2_create_parse_roundtrip (p a : String) (hp : p ≠ "") (ha : a ≠ "")
    (hpu : '_' ∉ p.data) (hau : '_' ∉ a.data) :
    TransitGatewayPolicyTableAssociationParseResourceID
      (TransitGatewayPolicyTableAssociationCreateResourceID p a) = (p, a, none) :=
  parse_create p a hp ha hpu hau

theorem C2_create_parse_roundtrip_witness :
    TransitGatewayPolicyTableAssociationParseResourceID
      (TransitGatewayPolicyTableAssociationCreateResourceID "tgw-ptb-1" "tgw-attach-1") =
      ("tgw-ptb-1", "tgw-attach-1", none) :=
  C2_create_parse_roundtrip "tgw-ptb-1" "tgw-attach-1" (by decide) (by decide) (by decide)
    (by decide)

/-- C3, as stated, fails: the schema accepts the non-empty IDs `a_b` and `c`,
the associate call and the create waiter succeed, Create sets the identifier
`a_b_c`, and the Read that follows (and Delete) rejects that identifier with
the formatting error instead of parsing it back. -/
theorem C3_counterexample_separator_in_id :
    (Examples.ec2Data "" true "a_b" "c").Get "transit_gateway_policy_table_id" = "a_b" ∧
    (Examples.ec2Data "" true "a_b" "c").Get "transit_gateway_attachment_id" = "c" ∧
    (Examples.ec2ConnOk Examples.assoc1).AssociateTransitGatewayPolicyTable "c" "a_b" = none ∧
    (Examples.ec2ConnOk Examples.assoc1).WaitTransitGatewayPolicyTableAssociationCreated
      "a_b" "c" = none ∧
    (ResourceTransitGatewayPolicyTableAssociationCreate (Examples.ec2ConnOk Examples.assoc1)
      (Examples.ec2Data "" true "a_b" "c")).data.Id = "a_b_c" ∧
    TransitGatewayPolicyTableAssociationParseResourceID "a_b_c" =
      ("", "", some (unexpectedFormatError "a_b_c")) ∧
    (ResourceTransitGatewayPolicyTableAssociationCreate (Examples.ec2ConnOk Examples.assoc1)
      (Examples.ec2Data "" true "a_b" "c")).err = some (unexpectedFormatError "a_b_c") ∧
    (ResourceTransitGatewayPolicyTableAssociationCreate (Examples.ec2ConnOk Examples.assoc1)
      (Examples.ec2Data "" true "a_b" "c")).calls =
      [Call.AssociateTransitGatewayPolicyTable "c" "a_b",
       Call.WaitTransitGatewayPolicyTableAssociationCreated "a_b" "c"] ∧
    (ResourceTransitGatewayPolicyTableAssociationDelete "InvalidPolicyTableID.NotFound"
      (Examples.ec2ConnOk Examples.assoc1) (Examples.ec2Data "a_b_c" false "a_b" "c")).err =
      some (unexpectedFormatError "a_b_c") := by
  decide

/-- C3, amended: when both configured IDs are non-empty and free of `_`, and
the associate call and the create waiter succeed, Create sets the identifier
`<policyTableID>_<attachmentID>` and hands over to Read on it; the identifier
parses back into exactly the configured policy table ID and attachment ID, so
that Read goes on to the finder with these two keys and returns no formatting
error, and Delete on that identifier starts by disassociating the same pair. -/
theorem C3_create_id_parses_back (conn : Conn) (d : ResourceData)
    (hp : d.Get "transit_gateway_policy_table_id" ≠ "")
    (ha : d.Get "transit_gateway_attachment_id" ≠ "")
    (hpu : '_' ∉ (d.Get "transit_gateway_policy_table_id").data)
    (hau : '_' ∉ (d.Get "transit_gateway_attachment_id").data)
    (hassoc : conn.AssociateTransitGatewayPolicyTable (d.Get "transit_gateway_attachment_id")
      (d.Get "transit_gateway_policy_table_id") = none)
    (hwait : conn.WaitTransitGatewayPolicyTableAssociationCreated
      (d.Get "transit_gateway_policy_table_id") (d.Get "transit_gateway_attachment_id") = none) :
    TransitGatewayPolicyTableAssociationParseResourceID
        (TransitGatewayPolicyTableAssociationCreateResourceID
          (d.Get "transit_gateway_policy_table_id") (d.Get "transit_gateway_attachment_id")) =
      (d.Get "transit_gateway_policy_table_id", d.Get "transit_gateway_attachment_id", none) ∧
    (ResourceTransitGatewayPolicyTableAssociationCreate conn d).data =
      (ResourceTransitGatewayPolicyTableAssociationRead conn
        (d.SetId (TransitGatewayPolicyTableAssociationCreateResourceID
          (d.Get "transit_gateway_policy_table_id")
          (d.Get "transit_gateway_attachment_id")))).data ∧
    (ResourceTransitGatewayPolicyTableAssociationCreate conn d).calls =
      [Call.AssociateTransitGatewayPolicyTable (d.Get "transit_gateway_attachment_id")
         (d.Get "transit_gateway_policy_table_id"),
       Call.WaitTransitGatewayPolicyTableAssociationCreated
         (d.Get "transit_gateway_policy_table_id") (d.Get "transit_gateway_attachment_id"),
       Call.FindTransitGatewayPolicyTableAssociationByTwoPartKey
         (d.Get "transit_gateway_policy_table_id") (d.Get "transit_gateway_attachment_id")] ∧
    (∀ msg, (ResourceTransitGatewayPolicyTableAssociationCreate conn d).err ≠
      some (.errorf msg)) ∧
    (∀ (code : String) (conn2 : Conn) (d2 : ResourceData),
      d2.Id = TransitGatewayPolicyTableAssociationCreateResourceID
          (d.Get "transit_gateway_policy_table_id") (d.Get "transit_gateway_attachment_id") →
      (ResourceTransitGatewayPolicyTableAssociationDelete code conn2 d2).calls.head? =
        some (Call.DisassociateTransitGatewayPolicyTable
          (d.Get "transit_gateway_attachment_id")
          (d.Get "transit_gateway_policy_table_id"))) := by
  have hparse := parse_create _ _ hp ha hpu hau
  have hparse2 : TransitGatewayPolicyTableAssociationParseResourceID
      (d.SetId (TransitGatewayPolicyTableAssociationCreateResourceID
        (d.Get "transit_gateway_policy_table_id")
        (d.Get "transit_gateway_attachment_id"))).Id =
      (d.Get "transit_gateway_policy_table_id", d.Get "transit_gateway_attachment_id", none) :=
    hparse
  refine ⟨hparse, ?_, ?_, ?_, ?_⟩
  · simp only [ResourceTransitGatewayPolicyTableAssociationCreate, hassoc, hwait]
  · simp only [ResourceTransitGatewayPolicyTableAssociationCreate, hassoc, hwait,
      read_calls_of_parse conn _ _ _ hparse2]
    rfl
  · intro msg
    simp only [ResourceTransitGatewayPolicyTableAssociationCreate, hassoc, hwait]
    exact read_err_of_parse conn _ _ _ hparse2 msg
  · intro code conn2 d2 hid
    rw [← hid] at hparse
    simp only [ResourceTransitGatewayPolicyTableAssociationDelete, hparse]
    split
    · rfl
    · split
      · rfl
      · split <;> rfl

theorem C3_create_id_parses_back_witness :
    TransitGatewayPolicyTableAssociationParseResourceID
        (TransitGatewayPolicyTableAssociationCreateResourceID "tgw-ptb-1" "tgw-attach-1") =
      ("tgw-ptb-1", "tgw-attach-1", none) ∧
    (ResourceTransitGatewayPolicyTableAssociationCreate (Examples.ec2ConnOk Examples.assoc1)
      (Examples.ec2Data "" true "tgw-ptb-1" "tgw-attach-1")).calls =
      [Call.AssociateTransitGatewayPolicyTable "tgw-attach-1" "tgw-ptb-1",
       Call.WaitTransitGatewayPolicyTableAssociationCreated "tgw-ptb-1" "tgw-attach-1",
       Call.FindTransitGatewayPolicyTableAssociationByTwoPartKey "tgw-ptb-1" "tgw-attach-1"] :=
  have h := C3_create_id_parses_back (Examples.ec2ConnOk Examples.assoc1)
    (Examples.ec2Data "" true "tgw-ptb-1" "tgw-attach-1")
    (by decide) (by decide) (by decide) (by decide) rfl rfl
  ⟨h.1, h.2.2.1⟩

/-! ## Claims about the handlers of the association resource -/

/-- C4: `TransitGatewayPolicyTableAssociationCreateResourceID p a` is `p`, then
the single character `_`, then `a`; and when Create, called on resource data
marked new as the plugin SDK does before every Create, succeeds, the
identifier it leaves is exactly this string for the configured IDs. -/
theorem C4_create_stores_joined_id (conn : Conn) (d : ResourceData)
    (hnew : d.IsNewResource = true)
    (hok : (ResourceTransitGatewayPolicyTableAssociationCreate conn d).err = none) :
    (∀ p a : String, TransitGatewayPolicyTableAssociationCreateResourceID p a = p ++ "_" ++ a) ∧
    (ResourceTransitGatewayPolicyTableAssociationCreate conn d).data.Id =
      d.Get "transit_gateway_policy_table_id" ++ "_" ++ d.Get "transit_gateway_attachment_id" := by
  refine ⟨createResourceID_eq, ?_⟩
  rw [← createResourceID_eq]
  revert hok
  simp only [ResourceTransitGatewayPolicyTableAssociationCreate]
  cases conn.AssociateTransitGatewayPolicyTable (d.Get "transit_gateway_attachment_id")
      (d.Get "transit_gateway_policy_table_id") with
  | some e => simp
  | none =>
    cases conn.WaitTransitGatewayPolicyTableAssociationCreated
        (d.Get "transit_gateway_policy_table_id") (d.Get "transit_gateway_attachment_id") with
    | some e => simp
    | none =>
      intro hok
      exact read_id_of_success conn _ hnew hok

theorem C4_create_stores_joined_id_witness :
    (ResourceTransitGatewayPolicyTableAssociationCreate (Examples.ec2ConnOk Examples.assoc1)
      (Examples.ec2Data "" true "tgw-ptb-1" "tgw-attach-1")).err = none ∧
    (ResourceTransitGatewayPolicyTableAssociationCreate (Examples.ec2ConnOk Examples.assoc1)
      (Examples.ec2Data "" true "tgw-ptb-1" "tgw-attach-1")).data.Id =
      "tgw-ptb-1_tgw-attach-1" :=
  ⟨by decide, (C4_create_stores_joined_id (Examples.ec2ConnOk Examples.assoc1)
    (Examples.ec2Data "" true "tgw-ptb-1" "tgw-attach-1") rfl (by decide)).2⟩

/-- C5 at an imported resource: the identifier `tgw-ptb-1_tgw-attach-1` is well
formed and the finder returns an association whose `TransitGatewayPolicyTableId`
is `tgw-ptb-1`.  Read returns nil and copies `ResourceId`, `ResourceType`,
`State` and `TransitGatewayAttachmentId` into the attribute bag, but
`transit_gateway_policy_table_id` is still empty afterwards: the handler hands
the whole association to `d.Set` instead of its `TransitGatewayPolicyTableId`. -/
theorem C5_read_leaves_policy_table_id_unset :
    TransitGatewayPolicyTableAssociationParseResourceID "tgw-ptb-1_tgw-attach-1" =
      ("tgw-ptb-1", "tgw-attach-1", none) ∧
    (Examples.ec2ConnOk Examples.assoc1).FindTransitGatewayPolicyTableAssociationByTwoPartKey
      "tgw-ptb-1" "tgw-attach-1" = .ok Examples.assoc1 ∧
    Examples.assoc1.TransitGatewayPolicyTableId = some "tgw-ptb-1" ∧
    (ResourceTransitGatewayPolicyTableAssociationRead (Examples.ec2ConnOk Examples.assoc1)
      (Examples.ec2Data "tgw-ptb-1_tgw-attach-1" false "" "")).err = none ∧
    (ResourceTransitGatewayPolicyTableAssociationRead (Examples.ec2ConnOk Examples.assoc1)
      (Examples.ec2Data "tgw-ptb-1_tgw-attach-1" false "" "")).data.Get "resource_id" =
      "vpc-1" ∧
    (ResourceTransitGatewayPolicyTableAssociationRead (Examples.ec2ConnOk Examples.assoc1)
      (Examples.ec2Data "tgw-ptb-1_tgw-attach-1" false "" "")).data.Get "resource_type" =
      "vpc" ∧
    (ResourceTransitGatewayPolicyTableAssociationRead (Examples.ec2ConnOk Examples.assoc1)
      (Examples.ec2Data "tgw-ptb-1_tgw-attach-1" false "" "")).data.Get "state" =
      "associated" ∧
    (ResourceTransitGatewayPolicyTableAssociationRead (Examples.ec2ConnOk Examples.assoc1)
      (Examples.ec2Data "tgw-ptb-1_tgw-attach-1" false "" "")).data.Get
        "transit_gateway_attachment_id" = "tgw-attach-1" ∧
    (ResourceTransitGatewayPolicyTableAssociationRead (Examples.ec2ConnOk Examples.assoc1)
      (Examples.ec2Data "tgw-ptb-1_tgw-attach-1" false "" "")).data.Get
        "transit_gateway_policy_table_id" = "" :=
  ⟨by decide, rfl, by decide, by decide, by decide, by decide, by decide, by decide, by decide⟩

/-- C6: when the finder reports not-found, each Read handler clears the
identifier, writes no attribute and returns no error or diagnostic if the
resource is not newly created; if it is newly created the handler keeps the
identifier (and everything else) and returns the error
`reading ... (<id>): <cause>`.  For the association resource the finder is
reached once the identifier has parsed. -/
theorem C6_read_not_found (conn : Conn) (d : ResourceData) (p a : String) (e : GoError)
    (wconn : redshiftserverless.Conn) (wd : redshiftserverless.ResourceData) (we : GoError)
    (hparse : TransitGatewayPolicyTableAssociationParseResourceID d.Id = (p, a, none))
    (hfind : conn.FindTransitGatewayPolicyTableAssociationByTwoPartKey p a = .error e)
    (hnf : tfresource.NotFound (some e) = true)
    (hwfind : wconn.FindWorkgroupByName wd.Id = .error we)
    (hwnf : tfresource.NotFound (some we) = true) :
    (d.IsNewResource = false →
      ResourceTransitGatewayPolicyTableAssociationRead conn d =
        ⟨{ d with id := "" },
         [Call.FindTransitGatewayPolicyTableAssociationByTwoPartKey p a], none⟩) ∧
    (d.IsNewResource = true →
      ResourceTransitGatewayPolicyTableAssociationRead conn d =
        ⟨d, [Call.FindTransitGatewayPolicyTableAssociationByTwoPartKey p a],
         some (.wrapf ("reading EC2 Transit Gateway Policy Table Association (" ++ d.Id ++ "): ")
           e)⟩ ∧
      (GoError.wrapf ("reading EC2 Transit Gateway Policy Table Association (" ++ d.Id ++ "): ")
        e).Error =
        "reading EC2 Transit Gateway Policy Table Association (" ++ d.Id ++ "): " ++ e.Error) ∧
    (wd.IsNewResource = false →
      redshiftserverless.resourceWorkgroupRead wconn wd =
        ⟨{ wd with id := "" }, [redshiftserverless.Call.FindWorkgroupByName wd.Id], []⟩) ∧
    (wd.IsNewResource = true →
      redshiftserverless.resourceWorkgroupRead wconn wd =
        ⟨wd, [redshiftserverless.Call.FindWorkgroupByName wd.Id],
         [⟨.Error, "reading Redshift Serverless Workgroup (" ++ wd.Id ++ "): " ++ we.Error,
           ""⟩]⟩) := by
  refine ⟨?_, ?_, ?_, ?_⟩
  · intro hnew
    simp [ResourceTransitGatewayPolicyTableAssociationRead, hparse, hfind, hnf, hnew,
      ResourceData.SetId]
  · intro hnew
    simp [ResourceTransitGatewayPolicyTableAssociationRead, hparse, hfind, hnew, GoError.Error]
  · intro hnew
    simp [redshiftserverless.resourceWorkgroupRead, hwfind, hwnf, hnew,
      redshiftserverless.ResourceData.SetId]
  · intro hnew
    simp [redshiftserverless.resourceWorkgroupRead, hwfind, hnew, sdkdiag.AppendErrorf]

theorem C6_read_not_found_witness :
    ResourceTransitGatewayPolicyTableAssociationRead
        (Examples.ec2ConnFail (.other "timeout"))
        (Examples.ec2Data "tgw-ptb-1_tgw-attach-1" false "tgw-ptb-1" "tgw-attach-1") =
      ⟨{ Examples.ec2Data "tgw-ptb-1_tgw-attach-1" false "tgw-ptb-1" "tgw-attach-1" with
          id := "" },
       [Call.FindTransitGatewayPolicyTableAssociationByTwoPartKey "tgw-ptb-1" "tgw-attach-1"],
       none⟩ ∧
    redshiftserverless.resourceWorkgroupRead
        (Examples.wgConn (fun _ => none) (.error (.notFound "couldn't find resource")))
        (Examples.wgData false Examples.attrs1 Examples.attrs1) =
      ⟨{ Examples.wgData false Examples.attrs1 Examples.attrs1 with id := "" },
       [redshiftserverless.Call.FindWorkgroupByName "wg"], []⟩ :=
  have h := C6_read_not_found (Examples.ec2ConnFail (.other "timeout"))
    (Examples.ec2Data "tgw-ptb-1_tgw-attach-1" false "tgw-ptb-1" "tgw-attach-1")
    "tgw-ptb-1" "tgw-attach-1" (.notFound "couldn't find resource")
    (Examples.wgConn (fun _ => none) (.error (.notFound "couldn't find resource")))
    (Examples.wgData false Examples.attrs1 Examples.attrs1) (.notFound "couldn't find resource")
    (by decide) rfl rfl rfl rfl
  ⟨h.1 rfl, h.2.2.1 rfl⟩

/-- C7: idempotent delete.  When the disassociate call fails with the
policy-table-not-found error code, Delete of the association returns nil and
its only call is that disassociate call.  When the (retried) `DeleteWorkgroup`
call ends with ResourceNotFoundException, `resourceWorkgroupDelete` returns
empty diagnostics, leaves the resource data alone and issues nothing but
`DeleteWorkgroup` calls, so the delete waiter is never invoked; if already the
first `DeleteWorkgroup` call fails so, it is the only call. -/
theorem C7_delete_not_found_succeeds (code : String) (conn : Conn) (d : ResourceData)
    (p a : String) (e : GoError)
    (wconn : redshiftserverless.Conn) (wd : redshiftserverless.ResourceData)
    (hparse : TransitGatewayPolicyTableAssociationParseResourceID d.Id = (p, a, none))
    (hdis : conn.DisassociateTransitGatewayPolicyTable a p = some e)
    (hcode : tfawserr.ErrCodeEquals (some e) code = true)
    (hw : tfawserr.ErrCodeEquals
      (tfresource.RetryWhenAWSErrMessageContains wconn.deleteRetries
        (fun attempt => wconn.DeleteWorkgroup attempt ⟨some wd.Id⟩)
        redshiftserverless.ErrCodeConflictException "operation running").1
      redshiftserverless.ErrCodeResourceNotFoundException = true) :
    ResourceTransitGatewayPolicyTableAssociationDelete code conn d =
      ⟨d, [Call.DisassociateTransitGatewayPolicyTable a p], none⟩ ∧
    (redshiftserverless.resourceWorkgroupDelete wconn wd).diags = [] ∧
    (redshiftserverless.resourceWorkgroupDelete wconn wd).data = wd ∧
    (∀ c ∈ (redshiftserverless.resourceWorkgroupDelete wconn wd).calls,
      c = redshiftserverless.Call.DeleteWorkgroup ⟨some wd.Id⟩) ∧
    redshiftserverless.Call.waitWorkgroupDeleted wd.Id ∉
      (redshiftserverless.resourceWorkgroupDelete wconn wd).calls ∧
    (tfawserr.ErrCodeEquals (wconn.DeleteWorkgroup 0 ⟨some wd.Id⟩)
        redshiftserverless.ErrCodeResourceNotFoundException = true →
      (redshiftserverless.resourceWorkgroupDelete wconn wd).calls =
        [redshiftserverless.Call.DeleteWorkgroup ⟨some wd.Id⟩]) := by
  have hcalls : (redshiftserverless.resourceWorkgroupDelete wconn wd).calls =
      List.replicate (tfresource.RetryWhenAWSErrMessageContains wconn.deleteRetries
        (fun attempt => wconn.DeleteWorkgroup attempt ⟨some wd.Id⟩)
        redshiftserverless.ErrCodeConflictException "operation running").2
        (redshiftserverless.Call.DeleteWorkgroup ⟨some wd.Id⟩) := by
    simp [redshiftserverless.resourceWorkgroupDelete, hw]
  refine ⟨?_, ?_, ?_, ?_, ?_, ?_⟩
  · simp [ResourceTransitGatewayPolicyTableAssociationDelete, hparse, hdis, hcode]
  · simp [redshiftserverless.resourceWorkgroupDelete, hw]
  · simp [redshiftserverless.resourceWorkgroupDelete, hw]
  · intro c hc
    rw [hcalls] at hc
    exact List.eq_of_mem_replicate hc
  · intro hc
    rw [hcalls] at hc
    have := List.eq_of_mem_replicate hc
    simp at this
  · intro h0
    rw [hcalls]
    have hstop := tfresource.retryLoop_stop
      (fun attempt => wconn.DeleteWorkgroup attempt ⟨some wd.Id⟩)
      redshiftserverless.ErrCodeConflictException "operation running" wconn.deleteRetries 0
      (redshiftserverless.not_retryable_of_not_found _ _ h0)
    simp [tfresource.RetryWhenAWSErrMessageContains, hstop]

theorem C7_delete_not_found_succeeds_witness :
    ResourceTransitGatewayPolicyTableAssociationDelete "InvalidPolicyTableID.NotFound"
        (Examples.ec2ConnFail (.awserr "InvalidPolicyTableID.NotFound" "no such policy table"))
        (Examples.ec2Data "tgw-ptb-1_tgw-attach-1" false "tgw-ptb-1" "tgw-attach-1") =
      ⟨Examples.ec2Data "tgw-ptb-1_tgw-attach-1" false "tgw-ptb-1" "tgw-attach-1",
       [Call.DisassociateTransitGatewayPolicyTable "tgw-attach-1" "tgw-ptb-1"], none⟩ ∧
    (redshiftserverless.resourceWorkgroupDelete
      (Examples.wgConn (fun _ => some (.awserr "ResourceNotFoundException" "gone"))
        (.ok Examples.workgroup1))
      (Examples.wgData false Examples.attrs1 Examples.attrs1)).diags = [] ∧
    (redshiftserverless.resourceWorkgroupDelete
      (Examples.wgConn (fun _ => some (.awserr "ResourceNotFoundException" "gone"))
        (.ok Examples.workgroup1))
      (Examples.wgData false Examples.attrs1 Examples.attrs1)).calls =
      [redshiftserverless.Call.DeleteWorkgroup ⟨some "wg"⟩] :=
  have h := C7_delete_not_found_succeeds "InvalidPolicyTableID.NotFound"
    (Examples.ec2ConnFail (.awserr "InvalidPolicyTableID.NotFound" "no such policy table"))
    (Examples.ec2Data "tgw-ptb-1_tgw-attach-1" false "tgw-ptb-1" "tgw-attach-1")
    "tgw-ptb-1" "tgw-attach-1" (.awserr "InvalidPolicyTableID.NotFound" "no such policy table")
    (Examples.wgConn (fun _ => some (.awserr "ResourceNotFoundException" "gone"))
      (.ok Examples.workgroup1))
    (Examples.wgData false Examples.attrs1 Examples.attrs1)
    (by decide) rfl (by decide) (by decide)
  ⟨h.1, h.2.1, h.2.2.2.2.2 (by decide)⟩

/-- C8: when the stored identifier is rejected by
`TransitGatewayPolicyTableAssociationParseResourceID`, Read and Delete both
return that formatting error at once: no finder, disassociate or waiter call
is made and identifier and attributes stay as they were. -/
theorem C8_malformed_id_fails_immediately (code : String) (conn : Conn) (d : ResourceData)
    (e : GoError)
    (h : (TransitGatewayPolicyTableAssociationParseResourceID d.Id).2.2 = some e) :
    ResourceTransitGatewayPolicyTableAssociationRead conn d = ⟨d, [], some e⟩ ∧
    ResourceTransitGatewayPolicyTableAssociationDelete code conn d = ⟨d, [], some e⟩ ∧
    e = unexpectedFormatError d.Id := by
  rcases parse_cases d.Id with h2 | h2
  · rw [h2] at h
    exact absurd h (by simp)
  · have he : e = unexpectedFormatError d.Id := by
      rw [h2] at h
      simpa using h.symm
    subst he
    refine ⟨?_, ?_, rfl⟩
    · simp [ResourceTransitGatewayPolicyTableAssociationRead, h2]
    · simp [ResourceTransitGatewayPolicyTableAssociationDelete, h2]

theorem C8_malformed_id_fails_immediately_witness :
    ResourceTransitGatewayPolicyTableAssociationRead (Examples.ec2ConnOk Examples.assoc1)
        (Examples.ec2Data "tgw-ptb-1" false "tgw-ptb-1" "tgw-attach-1") =
      ⟨Examples.ec2Data "tgw-ptb-1" false "tgw-ptb-1" "tgw-attach-1", [],
       some (unexpectedFormatError "tgw-ptb-1")⟩ ∧
    ResourceTransitGatewayPolicyTableAssociationDelete "InvalidPolicyTableID.NotFound"
        (Examples.ec2ConnOk Examples.assoc1)
        (Examples.ec2Data "tgw-ptb-1" false "tgw-ptb-1" "tgw-attach-1") =
      ⟨Examples.ec2Data "tgw-ptb-1" false "tgw-ptb-1" "tgw-attach-1", [],
       some (unexpectedFormatError "tgw-ptb-1")⟩ :=
  have h := C8_malformed_id_fails_immediately "InvalidPolicyTableID.NotFound"
    (Examples.ec2ConnOk Examples.assoc1)
    (Examples.ec2Data "tgw-ptb-1" false "tgw-ptb-1" "tgw-attach-1")
    (unexpectedFormatError "tgw-ptb-1") (by decide)
  ⟨h.1, h.2.1⟩

/-- C9: when the `AssociateTransitGatewayPolicyTable` call fails with cause
`e`, Create returns an error that wraps `e` and whose message is
`creating EC2 Transit Gateway Policy Table Association (<policyTableID>_<attachmentID>): `
followed by the message of `e`; the associate call is the only call made (no
waiter, no read), and the resource data, its identifier included, is left as
it was, so an identifier that was unset stays unset. -/
theorem C9_create_associate_failure (conn : Conn) (d : ResourceData) (e : GoError)
    (h : conn.AssociateTransitGatewayPolicyTable (d.Get "transit_gateway_attachment_id")
      (d.Get "transit_gateway_policy_table_id") = some e) :
    (ResourceTransitGatewayPolicyTableAssociationCreate conn d).err =
      some (.wrapf ("creating EC2 Transit Gateway Policy Table Association (" ++
        (d.Get "transit_gateway_policy_table_id" ++ "_" ++
          d.Get "transit_gateway_attachment_id") ++ "): ") e) ∧
    (ResourceTransitGatewayPolicyTableAssociationCreate conn d).err.map GoError.Error =
      some ("creating EC2 Transit Gateway Policy Table Association (" ++
        (d.Get "transit_gateway_policy_table_id" ++ "_" ++
          d.Get "transit_gateway_attachment_id") ++ "): " ++ e.Error) ∧
    (ResourceTransitGatewayPolicyTableAssociationCreate conn d).calls =
      [Call.AssociateTransitGatewayPolicyTable (d.Get "transit_gateway_attachment_id")
        (d.Get "transit_gateway_policy_table_id")] ∧
    (ResourceTransitGatewayPolicyTableAssociationCreate conn d).data = d ∧
    (d.Id = "" → (ResourceTransitGatewayPolicyTableAssociationCreate conn d).data.Id = "") := by
  simp only [ResourceTransitGatewayPolicyTableAssociationCreate, h, createResourceID_eq]
  simp [GoError.Error]

theorem C9_create_associate_failure_witness :
    (ResourceTransitGatewayPolicyTableAssociationCreate
      (Examples.ec2ConnFail (.awserr "InvalidTransitGatewayAttachmentID.NotFound" "no attachment"))
      (Examples.ec2Data "" true "tgw-ptb-1" "tgw-attach-1")).err.map GoError.Error =
      some ("creating EC2 Transit Gateway Policy Table Association (tgw-ptb-1_tgw-attach-1): "
        ++ "InvalidTransitGatewayAttachmentID.NotFound: no attachment") ∧
    (ResourceTransitGatewayPolicyTableAssociationCreate
      (Examples.ec2ConnFail (.awserr "InvalidTransitGatewayAttachmentID.NotFound" "no attachment"))
      (Examples.ec2Data "" true "tgw-ptb-1" "tgw-attach-1")).calls =
      [Call.AssociateTransitGatewayPolicyTable "tgw-attach-1" "tgw-ptb-1"] ∧
    (ResourceTransitGatewayPolicyTableAssociationCreate
      (Examples.ec2ConnFail (.awserr "InvalidTransitGatewayAttachmentID.NotFound" "no attachment"))
      (Examples.ec2Data "" true "tgw-ptb-1" "tgw-attach-1")).data.Id = "" :=
  have h := C9_create_associate_failure
    (Examples.ec2ConnFail (.awserr "InvalidTransitGatewayAttachmentID.NotFound" "no attachment"))
    (Examples.ec2Data "" true "tgw-ptb-1" "tgw-attach-1")
    (.awserr "InvalidTransitGatewayAttachmentID.NotFound" "no attachment") rfl
  ⟨h.2.1, h.2.2.1, h.2.2.2.2 rfl⟩


end AssociationClaims

/-! ## The update request of the workgroup resource -/

namespace redshiftserverless
open tf

theorem resourceWorkgroupRead_calls (conn : Conn) (d : ResourceData) :
    (resourceWorkgroupRead conn d).calls = [Call.FindWorkgroupByName d.Id] := by
  unfold resourceWorkgroupRead
  simp only []
  split
  · split <;> rfl
  · split
    · rfl
    · split <;> rfl

theorem expand_step (acc : Slice (Option ConfigParameter)) (c : ConfigParameterAttr) :
    (match Value.assertMap (Attributes.configParameterValue c) with
        | (_, false) => acc
        | (tfMap, true) =>
          match expandConfigParameter tfMap with
          | none => acc
          | some apiObject => Slice.append acc (some apiObject)) =
      some (acc.getD [] ++ [some ⟨some c.parameter_key, some c.parameter_value⟩]) := by
  simp [Attributes.configParameterValue, Value.assertMap, expandConfigParameter, TfMap.lookup,
    TfMap.insert, TfMap.empty, Value.assertString, Slice.append]

theorem expand_foldl (cs : List ConfigParameterAttr) (acc : Slice (Option ConfigParameter)) :
    (cs.map Attributes.configParameterValue).foldl
      (fun (apiObjects : Slice (Option ConfigParameter)) tfMapRaw =>
        match Value.assertMap tfMapRaw with
        | (_, false) => apiObjects
        | (tfMap, true) =>
          match expandConfigParameter tfMap with
          | none => apiObjects
          | some apiObject => Slice.append apiObjects (some apiObject))
      acc = if cs = [] then acc else some (acc.getD [] ++ cs.map expandedBlock) := by
  induction cs generalizing acc with
  | nil => rfl
  | cons c cs ih =>
    rw [List.map_cons, List.foldl_cons, expand_step, ih]
    by_cases h : cs = []
    · subst h
      simp [expandedBlock]
    · simp [h, expandedBlock]

/-- Expanding the blocks of a `config_parameter` attribute as `d.Get` returns
them gives one request entry per block, in order; no blocks give nil. -/
theorem expandConfigParameters_blocks (cs : List ConfigParameterAttr) :
    expandConfigParameters (some (cs.map Attributes.configParameterValue)) =
      if cs = [] then none else some (cs.map expandedBlock) := by
  unfold expandConfigParameters
  by_cases h : cs = []
  · subst h
    rfl
  · have hlen : ¬ (Slice.len (some (cs.map Attributes.configParameterValue)) = 0) := by
      cases cs with
      | nil => exact absurd rfl h
      | cons c cs => simp [Slice.len]
    rw [if_neg hlen]
    simp only [Option.getD_some]
    rw [expand_foldl]
    simp [h]

theorem getOk_base_capacity (d : ResourceData) :
    d.GetOk "base_capacity" = (.int d.plan.base_capacity, d.plan.base_capacity != 0) := rfl

theorem getOk_config_parameter (d : ResourceData) :
    d.GetOk "config_parameter" =
      (.slice (d.plan.config_parameter.map Attributes.configParameterValue),
       !d.plan.config_parameter.isEmpty) := rfl

theorem getOk_enhanced_vpc_routing (d : ResourceData) :
    d.GetOk "enhanced_vpc_routing" =
      (.bool d.plan.enhanced_vpc_routing, d.plan.enhanced_vpc_routing) := rfl

theorem getOk_publicly_accessible (d : ResourceData) :
    d.GetOk "publicly_accessible" =
      (.bool d.plan.publicly_accessible, d.plan.publicly_accessible) := rfl

theorem getOk_security_group_ids (d : ResourceData) :
    d.GetOk "security_group_ids" =
      (.set d.plan.security_group_ids, !d.plan.security_group_ids.isEmpty) := rfl

theorem getOk_subnet_ids (d : ResourceData) :
    d.GetOk "subnet_ids" = (.set d.plan.subnet_ids, !d.plan.subnet_ids.isEmpty) := rfl

theorem updateWorkgroupInput_eq (d : ResourceData) :
    updateWorkgroupInput d =
      { BaseCapacity := if d.plan.base_capacity = 0 then none else some d.plan.base_capacity
        ConfigParameters :=
          if d.plan.config_parameter = [] then none
          else some (d.plan.config_parameter.map expandedBlock)
        EnhancedVpcRouting := if d.plan.enhanced_vpc_routing = true then some true else none
        PubliclyAccessible := if d.plan.publicly_accessible = true then some true else none
        SecurityGroupIds :=
          if d.plan.security_group_ids = [] then none
          else some (d.plan.security_group_ids.map some)
        SubnetIds :=
          if d.plan.subnet_ids = [] then none else some (d.plan.subnet_ids.map some)
        WorkgroupName := some d.Id } := by
  unfold updateWorkgroupInput
  rw [getOk_base_capacity, getOk_config_parameter,
    getOk_enhanced_vpc_routing, getOk_publicly_accessible, getOk_security_group_ids,
    getOk_subnet_ids]
  have hcp := expandConfigParameters_blocks d.plan.config_parameter
  rcases hb : (d.plan.base_capacity != 0) with _ | _ <;>
  rcases hc : d.plan.config_parameter with _ | ⟨c, cs⟩ <;>
  rcases he : d.plan.enhanced_vpc_routing with _ | _ <;>
  rcases hpa : d.plan.publicly_accessible with _ | _ <;>
  rcases hsg : d.plan.security_group_ids with _ | ⟨g, gs⟩ <;>
  rcases hsn : d.plan.subnet_ids with _ | ⟨n, ns⟩ <;>
  rw [hc] at hcp <;>
  simp only [List.map_cons, List.map_nil, if_true, reduceCtorEq, if_false] at hcp <;>
  have hbc := hb <;>
  simp only [bne_iff_ne, ne_eq, bne_eq_false_iff_eq] at hbc <;>
  simp [hbc, hcp, Value.toInt, Value.toBool, Value.toSet, Value.toSlice, Slice.len,
    flex.ExpandStringSet]

end redshiftserverless

/-! ## Claims about the handlers of the workgroup resource -/

section WorkgroupClaims

open redshiftserverless

/-- C10, as stated, fails: in an update that changes only `publicly_accessible`
(from false to true) while `base_capacity` stays at 128, the `UpdateWorkgroup`
request that `resourceWorkgroupUpdate` sends has `BaseCapacity` set to 128,
although that attribute did not change. -/
theorem C10_counterexample_unchanged_field_sent :
    (Examples.wgData false Examples.attrs1 Examples.attrs2).HasChangesExcept
      ["tags", "tags_all"] = true ∧
    (Examples.wgData false Examples.attrs1 Examples.attrs2).HasChange "publicly_accessible" =
      true ∧
    (Examples.wgData false Examples.attrs1 Examples.attrs2).HasChange "base_capacity" = false ∧
    (resourceWorkgroupUpdate (Examples.wgConn (fun _ => none) (.ok Examples.workgroup1))
      (Examples.wgData false Examples.attrs1 Examples.attrs2)).calls.head? =
      some (Call.UpdateWorkgroup
        { BaseCapacity := some 128, ConfigParameters := none, EnhancedVpcRouting := none,
          PubliclyAccessible := some true, SecurityGroupIds := none, SubnetIds := none,
          WorkgroupName := some "wg" }) ∧
    (updateWorkgroupInput (Examples.wgData false Examples.attrs1 Examples.attrs2)).BaseCapacity ≠
      none := by
  decide

/-- C10, amended: in an update in which some non-tag attribute changed,
`resourceWorkgroupUpdate` starts with a single `UpdateWorkgroup` call whose
request names the workgroup and carries every attribute that currently holds a
non-zero value, changed or not: `BaseCapacity`, `ConfigParameters`,
`EnhancedVpcRouting`, `PubliclyAccessible`, `SecurityGroupIds` and `SubnetIds`
are each left unset exactly when the attribute is zero, false or empty, and
otherwise hold the attribute's value. -/
theorem C10_update_request_carries_set_fields (conn : Conn) (d : ResourceData)
    (h : d.HasChangesExcept ["tags", "tags_all"] = true) :
    (∃ rest, (resourceWorkgroupUpdate conn d).calls =
        Call.UpdateWorkgroup (updateWorkgroupInput d) :: rest ∧
      ∀ input, Call.UpdateWorkgroup input ∉ rest) ∧
    updateWorkgroupInput d =
      { BaseCapacity := if d.plan.base_capacity = 0 then none else some d.plan.base_capacity
        ConfigParameters :=
          if d.plan.config_parameter = [] then none
          else some (d.plan.config_parameter.map
            (fun c => some ⟨some c.parameter_key, some c.parameter_value⟩))
        EnhancedVpcRouting := if d.plan.enhanced_vpc_routing = true then some true else none
        PubliclyAccessible := if d.plan.publicly_accessible = true then some true else none
        SecurityGroupIds :=
          if d.plan.security_group_ids = [] then none
          else some (d.plan.security_group_ids.map some)
        SubnetIds :=
          if d.plan.subnet_ids = [] then none else some (d.plan.subnet_ids.map some)
        WorkgroupName := some d.Id } := by
  refine ⟨?_, updateWorkgroupInput_eq d⟩
  simp only [resourceWorkgroupUpdate, h, if_true]
  cases conn.UpdateWorkgroup (updateWorkgroupInput d) with
  | some e => exact ⟨[], rfl, by simp⟩
  | none =>
    cases conn.waitWorkgroupAvailable d.Id with
    | some e => exact ⟨[Call.waitWorkgroupAvailable d.Id], rfl, by simp⟩
    | none =>
      refine ⟨[Call.waitWorkgroupAvailable d.Id, Call.FindWorkgroupByName d.Id], ?_, by simp⟩
      simp [resourceWorkgroupRead_calls]

theorem C10_update_request_carries_set_fields_witness :
    (Examples.wgData false Examples.attrs1 Examples.attrs2).HasChangesExcept
      ["tags", "tags_all"] = true ∧
    updateWorkgroupInput (Examples.wgData false Examples.attrs1 Examples.attrs2) =
      { BaseCapacity := some 128, ConfigParameters := none, EnhancedVpcRouting := none,
        PubliclyAccessible := some true, SecurityGroupIds := none, SubnetIds := none,
        WorkgroupName := some "wg" } :=
  ⟨by decide, (C10_update_request_carries_set_fields
    (Examples.wgConn (fun _ => none) (.ok Examples.workgroup1))
    (Examples.wgData false Examples.attrs1 Examples.attrs2) (by decide)).2⟩

end WorkgroupClaims

/-! ## Claims about the requests of the workgroup resource -/

section RequestClaims

open redshiftserverless

/-- C11, as stated, fails: in an update that switches `enhanced_vpc_routing`
from true to false and empties `security_group_ids`, both attributes changed,
but the `UpdateWorkgroup` request that `resourceWorkgroupUpdate` sends has
neither `EnhancedVpcRouting` nor `SecurityGroupIds` set: the new values `false`
and the empty set are not carried. -/
theorem C11_counterexample_zero_value_dropped :
    (Examples.wgData false Examples.attrs3 Examples.attrs1).HasChangesExcept
      ["tags", "tags_all"] = true ∧
    (Examples.wgData false Examples.attrs3 Examples.attrs1).HasChange "enhanced_vpc_routing" =
      true ∧
    (Examples.wgData false Examples.attrs3 Examples.attrs1).HasChange "security_group_ids" =
      true ∧
    (Examples.wgData false Examples.attrs3 Examples.attrs1).plan.enhanced_vpc_routing = false ∧
    (Examples.wgData false Examples.attrs3 Examples.attrs1).plan.security_group_ids = [] ∧
    (resourceWorkgroupUpdate (Examples.wgConn (fun _ => none) (.ok Examples.workgroup1))
      (Examples.wgData false Examples.attrs3 Examples.attrs1)).calls.head? =
      some (Call.UpdateWorkgroup
        { BaseCapacity := some 128, ConfigParameters := none, EnhancedVpcRouting := none,
          PubliclyAccessible := none, SecurityGroupIds := none, SubnetIds := none,
          WorkgroupName := some "wg" }) ∧
    (updateWorkgroupInput
      (Examples.wgData false Examples.attrs3 Examples.attrs1)).EnhancedVpcRouting ≠
      some false := by
  decide

/-- C11, amended: in an update in which one of `base_capacity`,
`config_parameter`, `enhanced_vpc_routing`, `publicly_accessible`,
`security_group_ids` or `subnet_ids` changed, the `UpdateWorkgroup` request
that `resourceWorkgroupUpdate` sends carries that attribute's new value
whenever the new value is not the zero value of its type (a number other than
0, `true`, a non-empty list or set). -/
theorem C11_update_request_carries_new_nonzero_value (conn : Conn) (d : ResourceData)
    (h : d.HasChangesExcept ["tags", "tags_all"] = true) :
    (resourceWorkgroupUpdate conn d).calls.head? =
      some (Call.UpdateWorkgroup (updateWorkgroupInput d)) ∧
    (d.HasChange "base_capacity" = true → d.plan.base_capacity ≠ 0 →
      (updateWorkgroupInput d).BaseCapacity = some d.plan.base_capacity) ∧
    (d.HasChange "config_parameter" = true → d.plan.config_parameter ≠ [] →
      (updateWorkgroupInput d).ConfigParameters =
        some (d.plan.config_parameter.map
          (fun c => some ⟨some c.parameter_key, some c.parameter_value⟩))) ∧
    (d.HasChange "enhanced_vpc_routing" = true → d.plan.enhanced_vpc_routing = true →
      (updateWorkgroupInput d).EnhancedVpcRouting = some true) ∧
    (d.HasChange "publicly_accessible" = true → d.plan.publicly_accessible = true →
      (updateWorkgroupInput d).PubliclyAccessible = some true) ∧
    (d.HasChange "security_group_ids" = true → d.plan.security_group_ids ≠ [] →
      (updateWorkgroupInput d).SecurityGroupIds = some (d.plan.security_group_ids.map some)) ∧
    (d.HasChange "subnet_ids" = true → d.plan.subnet_ids ≠ [] →
      (updateWorkgroupInput d).SubnetIds = some (d.plan.subnet_ids.map some)) := by
  refine ⟨?_, ?_⟩
  · simp only [resourceWorkgroupUpdate, h, if_true]
    cases conn.UpdateWorkgroup (updateWorkgroupInput d) with
    | some e => rfl
    | none =>
      cases conn.waitWorkgroupAvailable d.Id with
      | some e => rfl
      | none => rfl
  · rw [updateWorkgroupInput_eq]
    refine ⟨?_, ?_, ?_, ?_, ?_, ?_⟩ <;> intro _ hv <;> simp [hv, expandedBlock]

theorem C11_update_request_carries_new_nonzero_value_witness :
    (Examples.wgData false Examples.attrs1 Examples.attrs2).HasChange "publicly_accessible" =
      true ∧
    (updateWorkgroupInput
      (Examples.wgData false Examples.attrs1 Examples.attrs2)).PubliclyAccessible =
      some true :=
  ⟨by decide, (C11_update_request_carries_new_nonzero_value
    (Examples.wgConn (fun _ => none) (.ok Examples.workgroup1))
    (Examples.wgData false Examples.attrs1 Examples.attrs2) (by decide)).2.2.2.2.1
      (by decide) rfl⟩

/-- C18: in an update in which no attribute other than `tags` and `tags_all`
changed, `resourceWorkgroupUpdate` issues no `UpdateWorkgroup` call and invokes
no waiter: its outcome is the outcome of `resourceWorkgroupRead`, whose only
call is the finder, and it returns exactly the diagnostics of that read. -/
theorem C18_tags_only_update_reads_only (conn : Conn) (d : ResourceData)
    (h : ∀ key ∈ schemaKeys, key ≠ "tags" → key ≠ "tags_all" → d.HasChange key = false) :
    resourceWorkgroupUpdate conn d = resourceWorkgroupRead conn d ∧
    (resourceWorkgroupUpdate conn d).calls = [Call.FindWorkgroupByName d.Id] ∧
    (resourceWorkgroupUpdate conn d).diags = (resourceWorkgroupRead conn d).diags ∧
    (∀ input, Call.UpdateWorkgroup input ∉ (resourceWorkgroupUpdate conn d).calls) ∧
    (∀ name, Call.waitWorkgroupAvailable name ∉ (resourceWorkgroupUpdate conn d).calls) := by
  have hno : d.HasChangesExcept ["tags", "tags_all"] = false := by
    simp only [ResourceData.HasChangesExcept, List.any_eq_false]
    intro key hkey
    by_cases h1 : key = "tags"
    · subst h1; simp
    · by_cases h2 : key = "tags_all"
      · subst h2; simp
      · simp [h key hkey h1 h2]
  have heq : resourceWorkgroupUpdate conn d = resourceWorkgroupRead conn d := by
    simp [resourceWorkgroupUpdate, hno]
  rw [heq]
  refine ⟨rfl, resourceWorkgroupRead_calls conn d, rfl, ?_, ?_⟩ <;>
    simp [resourceWorkgroupRead_calls]

theorem C18_tags_only_update_reads_only_witness :
    (Examples.wgData false Examples.attrs1 Examples.attrs4).HasChange "tags" = true ∧
    (resourceWorkgroupUpdate (Examples.wgConn (fun _ => none) (.ok Examples.workgroup1))
      (Examples.wgData false Examples.attrs1 Examples.attrs4)).calls =
      [Call.FindWorkgroupByName "wg"] :=
  ⟨by decide, (C18_tags_only_update_reads_only
    (Examples.wgConn (fun _ => none) (.ok Examples.workgroup1))
    (Examples.wgData false Examples.attrs1 Examples.attrs4) (by decide)).2.1⟩

end RequestClaims

/-! ## The delete handler of the workgroup resource -/

namespace redshiftserverless

/-- The outcome of the retried `DeleteWorkgroup` call of
`resourceWorkgroupDelete`: the last error and the number of attempts. -/
theorem delete_not_found (conn : Conn) (d : ResourceData)
    (h : tfawserr.ErrCodeEquals
      (tfresource.RetryWhenAWSErrMessageContains conn.deleteRetries
        (fun attempt => conn.DeleteWorkgroup attempt ⟨some d.Id⟩)
        ErrCodeConflictException "operation running").1
      ErrCodeResourceNotFoundException = true) :
    resourceWorkgroupDelete conn d =
      ⟨d, List.replicate (tfresource.RetryWhenAWSErrMessageContains conn.deleteRetries
        (fun attempt => conn.DeleteWorkgroup attempt ⟨some d.Id⟩)
        ErrCodeConflictException "operation running").2 (Call.DeleteWorkgroup ⟨some d.Id⟩),
       []⟩ := by
  simp [resourceWorkgroupDelete, h]

theorem delete_other_error (conn : Conn) (d : ResourceData) (e : GoError)
    (he : (tfresource.RetryWhenAWSErrMessageContains conn.deleteRetries
        (fun attempt => conn.DeleteWorkgroup attempt ⟨some d.Id⟩)
        ErrCodeConflictException "operation running").1 = some e)
    (h : tfawserr.ErrCodeEquals (some e) ErrCodeResourceNotFoundException = false) :
    resourceWorkgroupDelete conn d =
      ⟨d, List.replicate (tfresource.RetryWhenAWSErrMessageContains conn.deleteRetries
        (fun attempt => conn.DeleteWorkgroup attempt ⟨some d.Id⟩)
        ErrCodeConflictException "operation running").2 (Call.DeleteWorkgroup ⟨some d.Id⟩),
       [⟨.Error, "deleting Redshift Serverless Workgroup (" ++ d.Id ++ "): " ++ e.Error, ""⟩]⟩ := by
  simp [resourceWorkgroupDelete, he, h, sdkdiag.AppendErrorf]

theorem delete_success_calls (conn : Conn) (d : ResourceData)
    (he : (tfresource.RetryWhenAWSErrMessageContains conn.deleteRetries
        (fun attempt => conn.DeleteWorkgroup attempt ⟨some d.Id⟩)
        ErrCodeConflictException "operation running").1 = none) :
    (resourceWorkgroupDelete conn d).calls =
      List.replicate (tfresource.RetryWhenAWSErrMessageContains conn.deleteRetries
        (fun attempt => conn.DeleteWorkgroup attempt ⟨some d.Id⟩)
        ErrCodeConflictException "operation running").2 (Call.DeleteWorkgroup ⟨some d.Id⟩) ++
      [Call.waitWorkgroupDeleted d.Id] := by
  simp only [resourceWorkgroupDelete, he, tfawserr.ErrCodeEquals]
  cases conn.waitWorkgroupDeleted d.Id <;> simp

/-- The `DeleteWorkgroup` calls of the delete handler are as many as the
retried call made attempts. -/
theorem delete_count (conn : Conn) (d : ResourceData) :
    (resourceWorkgroupDelete conn d).calls.count (Call.DeleteWorkgroup ⟨some d.Id⟩) =
      (tfresource.RetryWhenAWSErrMessageContains conn.deleteRetries
        (fun attempt => conn.DeleteWorkgroup attempt ⟨some d.Id⟩)
        ErrCodeConflictException "operation running").2 := by
  rcases he : (tfresource.RetryWhenAWSErrMessageContains conn.deleteRetries
        (fun attempt => conn.DeleteWorkgroup attempt ⟨some d.Id⟩)
        ErrCodeConflictException "operation running").1 with _ | e
  · rw [delete_success_calls conn d he]
    simp [List.count_replicate]
  · cases h : tfawserr.ErrCodeEquals (some e) ErrCodeResourceNotFoundException with
    | true =>
      rw [← he] at h
      rw [delete_not_found conn d h]
      simp [List.count_replicate]
    | false =>
      rw [delete_other_error conn d e he h]
      simp [List.count_replicate]

end redshiftserverless

namespace tfresource

/-- A second attempt is made when the first fails with the awaited error and a
retry is left. -/
theorem retryLoop_attempts_ge (f : Nat → Option GoError) (code message : String)
    (retries attempt : Nat) :
    attempt + 1 ≤ (retryLoop f code message retries attempt).2 := by
  induction retries generalizing attempt with
  | zero => simp [retryLoop]
  | succ n ih =>
    simp only [retryLoop]
    split
    · exact Nat.le_trans (Nat.le_succ _) (ih (attempt + 1))
    · simp

end tfresource

namespace tfresource

/-- The retry loop, attempt by attempt: it makes at least one and at most
`retries + 1` attempts, every attempt before the last failed with the awaited
error, the last attempt did not fail so unless the retries are used up, and the
error returned is the answer of the last attempt. -/
theorem retryLoop_spec (f : Nat → Option GoError) (code message : String)
    (retries attempt : Nat) :
    attempt + 1 ≤ (retryLoop f code message retries attempt).2 ∧
    (retryLoop f code message retries attempt).2 ≤ attempt + retries + 1 ∧
    (retryLoop f code message retries attempt).1 =
      f ((retryLoop f code message retries attempt).2 - 1) ∧
    (∀ i, attempt ≤ i → i + 1 < (retryLoop f code message retries attempt).2 →
      tfawserr.ErrMessageContains (f i) code message = true) ∧
    ((retryLoop f code message retries attempt).2 ≤ attempt + retries →
      tfawserr.ErrMessageContains (f ((retryLoop f code message retries attempt).2 - 1))
        code message = false) := by
  induction retries generalizing attempt with
  | zero =>
    have e : retryLoop f code message 0 attempt = (f attempt, attempt + 1) := rfl
    rw [e]
    dsimp only
    rw [Nat.add_sub_cancel]
    refine ⟨Nat.le_refl _, Nat.le_refl _, rfl, ?_, ?_⟩
    · intro i h1 h2
      omega
    · intro h
      omega
  | succ n ih =>
    cases hc : tfawserr.ErrMessageContains (f attempt) code message with
    | true =>
      have e : retryLoop f code message (n + 1) attempt =
          retryLoop f code message n (attempt + 1) := by
        rw [retryLoop, if_pos hc]
      obtain ⟨h1, h2, h3, h4, h5⟩ := ih (attempt + 1)
      rw [e]
      refine ⟨by omega, by omega, h3, ?_, ?_⟩
      · intro i hi1 hi2
        by_cases hia : i = attempt
        · rw [hia]
          exact hc
        · exact h4 i (by omega) hi2
      · intro h
        exact h5 (by omega)
    | false =>
      have e : retryLoop f code message (n + 1) attempt = (f attempt, attempt + 1) := by
        rw [retryLoop, if_neg (by simp [hc])]
      rw [e]
      dsimp only
      rw [Nat.add_sub_cancel]
      refine ⟨Nat.le_refl _, by omega, rfl, ?_, fun _ => hc⟩
      intro i h1 h2
      omega

end tfresource

section DeleteClaims

open redshiftserverless

/-- C17: `resourceWorkgroupDelete` issues between one and `deleteRetries + 1`
`DeleteWorkgroup` calls, and it repeats the call only after a failure with a
ConflictException whose message contains `operation running`: every call but
the last failed so, and the last call did not unless the retries were used up.
In particular, when the first call has any other outcome, exactly one call is
issued.  What the handler returns is decided by the answer of the last call:
on success it goes on to the delete waiter and returns the waiter's verdict; on
ResourceNotFoundException it returns empty diagnostics; any other error is
returned as the diagnostic
`deleting Redshift Serverless Workgroup (<id>): <cause>`.  In the last two
cases the `DeleteWorkgroup` calls are the only calls, so the delete waiter is
not invoked; the resource data is never touched. -/
theorem C17_delete_retries_only_on_conflict (conn : Conn) (d : ResourceData) :
    (1 ≤ deleteAttempts conn d ∧ deleteAttempts conn d ≤ conn.deleteRetries + 1) ∧
    (∀ i, i + 1 < deleteAttempts conn d →
      tfawserr.ErrMessageContains (conn.DeleteWorkgroup i ⟨some d.Id⟩)
        ErrCodeConflictException "operation running" = true) ∧
    (deleteAttempts conn d ≤ conn.deleteRetries →
      tfawserr.ErrMessageContains
        (conn.DeleteWorkgroup (deleteAttempts conn d - 1) ⟨some d.Id⟩)
        ErrCodeConflictException "operation running" = false) ∧
    (tfawserr.ErrMessageContains (conn.DeleteWorkgroup 0 ⟨some d.Id⟩)
        ErrCodeConflictException "operation running" = false →
      deleteAttempts conn d = 1) ∧
    (conn.DeleteWorkgroup (deleteAttempts conn d - 1) ⟨some d.Id⟩ = none →
      resourceWorkgroupDelete conn d =
        ⟨d, List.replicate (deleteAttempts conn d) (Call.DeleteWorkgroup ⟨some d.Id⟩) ++
            [Call.waitWorkgroupDeleted d.Id],
         match conn.waitWorkgroupDeleted d.Id with
         | some e =>
           [⟨.Error, "waiting for Redshift Serverless Workgroup (" ++ d.Id ++ ") delete: " ++
             e.Error, ""⟩]
         | none => []⟩) ∧
    (tfawserr.ErrCodeEquals (conn.DeleteWorkgroup (deleteAttempts conn d - 1) ⟨some d.Id⟩)
        ErrCodeResourceNotFoundException = true →
      resourceWorkgroupDelete conn d =
        ⟨d, List.replicate (deleteAttempts conn d) (Call.DeleteWorkgroup ⟨some d.Id⟩), []⟩) ∧
    (∀ e, conn.DeleteWorkgroup (deleteAttempts conn d - 1) ⟨some d.Id⟩ = some e →
      tfawserr.ErrCodeEquals (some e) ErrCodeResourceNotFoundException = false →
      resourceWorkgroupDelete conn d =
        ⟨d, List.replicate (deleteAttempts conn d) (Call.DeleteWorkgroup ⟨some d.Id⟩),
         [⟨.Error, "deleting Redshift Serverless Workgroup (" ++ d.Id ++ "): " ++ e.Error,
           ""⟩]⟩) := by
  have hn : deleteAttempts conn d =
      (tfresource.RetryWhenAWSErrMessageContains conn.deleteRetries
        (fun attempt => conn.DeleteWorkgroup attempt ⟨some d.Id⟩)
        ErrCodeConflictException "operation running").2 := delete_count conn d
  obtain ⟨h1, h2, h3, h4, h5⟩ := tfresource.retryLoop_spec
    (fun attempt => conn.DeleteWorkgroup attempt ⟨some d.Id⟩)
    ErrCodeConflictException "operation running" conn.deleteRetries 0
  rw [show tfresource.retryLoop (fun attempt => conn.DeleteWorkgroup attempt ⟨some d.Id⟩)
      ErrCodeConflictException "operation running" conn.deleteRetries 0 =
    tfresource.RetryWhenAWSErrMessageContains conn.deleteRetries
      (fun attempt => conn.DeleteWorkgroup attempt ⟨some d.Id⟩)
      ErrCodeConflictException "operation running" from rfl] at h1 h2 h3 h4 h5
  rw [← hn] at h1 h2 h3 h4 h5
  simp only [Nat.zero_add] at h1 h2 h5
  refine ⟨⟨h1, h2⟩, fun i hi => h4 i (Nat.zero_le i) hi, h5, ?_, ?_, ?_, ?_⟩
  · intro h0
    by_contra hne
    have := h4 0 (Nat.le_refl 0) (by omega)
    rw [h0] at this
    exact absurd this (by simp)
  · intro hlast
    have hnone : (tfresource.RetryWhenAWSErrMessageContains conn.deleteRetries
        (fun attempt => conn.DeleteWorkgroup attempt ⟨some d.Id⟩)
        ErrCodeConflictException "operation running").1 = none := by
      rw [h3]
      exact hlast
    simp only [resourceWorkgroupDelete, hnone, tfawserr.ErrCodeEquals, ← hn]
    cases conn.waitWorkgroupDeleted d.Id <;> simp [sdkdiag.AppendErrorf]
  · intro hnf
    have h := delete_not_found conn d (by rw [h3]; exact hnf)
    rw [← hn] at h
    exact h
  · intro e he hne
    have h := delete_other_error conn d e (by rw [h3]; exact he) hne
    rw [← hn] at h
    exact h

theorem C17_delete_retries_only_on_conflict_witness :
    deleteAttempts (Examples.wgConn Examples.deleteAnswers (.ok Examples.workgroup1))
      (Examples.wgData false Examples.attrs1 Examples.attrs1) = 2 ∧
    resourceWorkgroupDelete (Examples.wgConn Examples.deleteAnswers (.ok Examples.workgroup1))
        (Examples.wgData false Examples.attrs1 Examples.attrs1) =
      ⟨Examples.wgData false Examples.attrs1 Examples.attrs1,
       [Call.DeleteWorkgroup ⟨some "wg"⟩, Call.DeleteWorkgroup ⟨some "wg"⟩],
       [⟨.Error, "deleting Redshift Serverless Workgroup (wg): ValidationException: bad name",
         ""⟩]⟩ :=
  ⟨by decide,
   (C17_delete_retries_only_on_conflict
      (Examples.wgConn Examples.deleteAnswers (.ok Examples.workgroup1))
      (Examples.wgData false Examples.attrs1 Examples.attrs1)).2.2.2.2.2.2
        (.awserr "ValidationException" "bad name") (by decide) (by decide)⟩

end DeleteClaims

/-! ## The create request of the workgroup resource -/

namespace redshiftserverless
open tf

theorem get_workgroup_name (d : ResourceData) :
    d.Get "workgroup_name" = .str d.plan.workgroup_name := rfl

theorem get_namespace_name (d : ResourceData) :
    d.Get "namespace_name" = .str d.plan.namespace_name := rfl

/-- The create request, field by field, in terms of the configured values:
an optional field is set exactly when its attribute holds a non-zero value. -/
theorem createWorkgroupInput_eq (tagsIn : List (String × String)) (d : ResourceData) :
    createWorkgroupInput tagsIn d =
      { BaseCapacity := if d.plan.base_capacity = 0 then none else some d.plan.base_capacity
        ConfigParameters :=
          if d.plan.config_parameter = [] then none
          else some (d.plan.config_parameter.map expandedBlock)
        EnhancedVpcRouting := if d.plan.enhanced_vpc_routing = true then some true else none
        NamespaceName := some d.plan.namespace_name
        PubliclyAccessible := if d.plan.publicly_accessible = true then some true else none
        SecurityGroupIds :=
          if d.plan.security_group_ids = [] then none
          else some (d.plan.security_group_ids.map some)
        SubnetIds :=
          if d.plan.subnet_ids = [] then none else some (d.plan.subnet_ids.map some)
        Tags := tagsIn
        WorkgroupName := some d.plan.workgroup_name } := by
  unfold createWorkgroupInput
  rw [getOk_base_capacity, getOk_config_parameter,
    getOk_enhanced_vpc_routing, getOk_publicly_accessible, getOk_security_group_ids,
    getOk_subnet_ids, get_workgroup_name, get_namespace_name]
  have hcp := expandConfigParameters_blocks d.plan.config_parameter
  rcases hb : (d.plan.base_capacity != 0) with _ | _ <;>
  rcases hc : d.plan.config_parameter with _ | ⟨c, cs⟩ <;>
  rcases he : d.plan.enhanced_vpc_routing with _ | _ <;>
  rcases hpa : d.plan.publicly_accessible with _ | _ <;>
  rcases hsg : d.plan.security_group_ids with _ | ⟨g, gs⟩ <;>
  rcases hsn : d.plan.subnet_ids with _ | ⟨n, ns⟩ <;>
  rw [hc] at hcp <;>
  simp only [List.map_cons, List.map_nil, if_true, reduceCtorEq, if_false] at hcp <;>
  have hbc := hb <;>
  simp only [bne_iff_ne, ne_eq, bne_eq_false_iff_eq] at hbc <;>
  simp [hbc, hcp, Value.toInt, Value.toBool, Value.toSet, Value.toSlice, Value.toString,
    Slice.len, flex.ExpandStringSet]

theorem workgroup_set_id (d : ResourceData) (key : String) (value : Value) :
    (d.Set key value).1.id = d.id := by
  unfold ResourceData.Set
  split
  · rfl
  · split <;> rfl

/-- A Read of a resource marked new that returns no diagnostics keeps the
identifier. -/
theorem workgroup_read_id_of_success (conn : Conn) (d : ResourceData) (hnew : d.IsNewResource = true)
    (hok : (resourceWorkgroupRead conn d).diags = []) :
    (resourceWorkgroupRead conn d).data.id = d.id := by
  revert hok
  unfold resourceWorkgroupRead
  simp only []
  split
  · simp [hnew, sdkdiag.AppendErrorf]
  · split
    · simp [sdkdiag.AppendErrorf]
    · split
      · simp [sdkdiag.AppendErrorf]
      · rename_i d1 h1 _ d2 h2
        intro _
        have e2 := congrArg (fun r => r.1.id) h2
        have e1 := congrArg (fun r => r.1.id) h1
        simp only [workgroup_set_id] at e1 e2
        simp only [workgroup_set_id]
        rw [← e2, ← e1]

end redshiftserverless

section CreateClaims

open redshiftserverless

/-- C13: the request that `resourceWorkgroupCreate` builds has `NamespaceName`
and `WorkgroupName` equal to the configured `namespace_name` and
`workgroup_name`; each of `BaseCapacity`, `ConfigParameters`,
`EnhancedVpcRouting`, `PubliclyAccessible`, `SecurityGroupIds` and `SubnetIds`
is set exactly when `d.GetOk` reports the attribute as set (non-zero, non-empty
for lists and sets) and then equals the configured value.  It is sent in the
single `CreateWorkgroup` call of the handler, and when the handler, called on
resource data marked new as the plugin SDK does before every Create, returns
no diagnostics, the identifier is the `WorkgroupName` the API returned. -/
theorem C13_create_request_and_id (tagsIn : List (String × String)) (conn : Conn)
    (d : ResourceData) :
    createWorkgroupInput tagsIn d =
      { BaseCapacity := if d.plan.base_capacity = 0 then none else some d.plan.base_capacity
        ConfigParameters :=
          if d.plan.config_parameter = [] then none
          else some (d.plan.config_parameter.map
            (fun c => some ⟨some c.parameter_key, some c.parameter_value⟩))
        EnhancedVpcRouting := if d.plan.enhanced_vpc_routing = true then some true else none
        NamespaceName := some d.plan.namespace_name
        PubliclyAccessible := if d.plan.publicly_accessible = true then some true else none
        SecurityGroupIds :=
          if d.plan.security_group_ids = [] then none
          else some (d.plan.security_group_ids.map some)
        SubnetIds :=
          if d.plan.subnet_ids = [] then none else some (d.plan.subnet_ids.map some)
        Tags := tagsIn
        WorkgroupName := some d.plan.workgroup_name } ∧
    (((createWorkgroupInput tagsIn d).BaseCapacity ≠ none ↔
        (d.GetOk "base_capacity").2 = true) ∧
      ((createWorkgroupInput tagsIn d).ConfigParameters ≠ none ↔
        (d.GetOk "config_parameter").2 = true) ∧
      ((createWorkgroupInput tagsIn d).EnhancedVpcRouting ≠ none ↔
        (d.GetOk "enhanced_vpc_routing").2 = true) ∧
      ((createWorkgroupInput tagsIn d).PubliclyAccessible ≠ none ↔
        (d.GetOk "publicly_accessible").2 = true) ∧
      ((createWorkgroupInput tagsIn d).SecurityGroupIds ≠ none ↔
        (d.GetOk "security_group_ids").2 = true) ∧
      ((createWorkgroupInput tagsIn d).SubnetIds ≠ none ↔
        (d.GetOk "subnet_ids").2 = true)) ∧
    (∃ rest, (resourceWorkgroupCreate tagsIn conn d).calls =
        Call.CreateWorkgroup (createWorkgroupInput tagsIn d) :: rest ∧
      ∀ input, Call.CreateWorkgroup input ∉ rest) ∧
    (∀ output, conn.CreateWorkgroup (createWorkgroupInput tagsIn d) = .ok output →
      d.IsNewResource = true → (resourceWorkgroupCreate tagsIn conn d).diags = [] →
      (resourceWorkgroupCreate tagsIn conn d).data.Id = aws.StringValue output.WorkgroupName) := by
  refine ⟨createWorkgroupInput_eq tagsIn d, ?_, ?_, ?_⟩
  · rw [createWorkgroupInput_eq, getOk_base_capacity, getOk_config_parameter,
      getOk_enhanced_vpc_routing, getOk_publicly_accessible, getOk_security_group_ids,
      getOk_subnet_ids]
    refine ⟨?_, ?_, ?_, ?_, ?_, ?_⟩
    · by_cases h : d.plan.base_capacity = 0 <;> simp [h]
    · cases h : d.plan.config_parameter <;> simp
    · cases h : d.plan.enhanced_vpc_routing <;> simp
    · cases h : d.plan.publicly_accessible <;> simp
    · cases h : d.plan.security_group_ids <;> simp
    · cases h : d.plan.subnet_ids <;> simp
  · simp only [resourceWorkgroupCreate]
    cases conn.CreateWorkgroup (createWorkgroupInput tagsIn d) with
    | error e => exact ⟨[], rfl, by simp⟩
    | ok output =>
      simp only []
      cases conn.waitWorkgroupAvailable (d.SetId (aws.StringValue output.WorkgroupName)).Id with
      | some e =>
        exact ⟨[Call.waitWorkgroupAvailable
          (d.SetId (aws.StringValue output.WorkgroupName)).Id], rfl, by simp⟩
      | none =>
        refine ⟨[Call.waitWorkgroupAvailable
            (d.SetId (aws.StringValue output.WorkgroupName)).Id,
          Call.FindWorkgroupByName (d.SetId (aws.StringValue output.WorkgroupName)).Id],
          ?_, by simp⟩
        simp [resourceWorkgroupRead_calls]
  · intro output hcreate hnew
    simp only [resourceWorkgroupCreate, hcreate]
    cases conn.waitWorkgroupAvailable (d.SetId (aws.StringValue output.WorkgroupName)).Id with
    | some e => simp [sdkdiag.AppendErrorf]
    | none =>
      simp only [List.nil_append]
      intro hok
      exact workgroup_read_id_of_success conn _ hnew hok

theorem C13_create_request_and_id_witness :
    createWorkgroupInput [("k1", "v1")] (Examples.wgNewData Examples.attrs5) =
      { BaseCapacity := none
        ConfigParameters := some [some ⟨some "datestyle", some "ISO, MDY"⟩,
          some ⟨some "query_group", some "default"⟩]
        EnhancedVpcRouting := none
        NamespaceName := some "ns"
        PubliclyAccessible := some true
        SecurityGroupIds := none
        SubnetIds := some [some "subnet-1", some "subnet-2"]
        Tags := [("k1", "v1")]
        WorkgroupName := some "wg-new" } ∧
    (resourceWorkgroupCreate [("k1", "v1")]
      (Examples.wgConn (fun _ => none) (.ok Examples.workgroup1))
      (Examples.wgNewData Examples.attrs5)).data.Id = "wg" :=
  have h := C13_create_request_and_id [("k1", "v1")]
    (Examples.wgConn (fun _ => none) (.ok Examples.workgroup1))
    (Examples.wgNewData Examples.attrs5)
  ⟨h.1, h.2.2.2 Examples.workgroup1 rfl rfl (by decide)⟩

end CreateClaims

/-! ## The parts of an identifier that parses -/

namespace strings

/-- A text that splits into a single part is that part and has no separator. -/
theorem splitChars_single (c : Char) (s y : List Char) (h : splitChars [c] s 0 = [y]) :
    s = y ∧ c ∉ y := by
  induction s generalizing y with
  | nil =>
    simp only [splitChars, List.cons.injEq, and_true] at h
    subst h
    simp
  | cons x xs ih =>
    by_cases hx : c = x
    · subst hx
      simp only [splitChars, List.isPrefixOf, beq_self_eq_true, Bool.and_true, if_true,
        List.length_singleton, Nat.sub_self, List.cons.injEq] at h
      exact absurd h.2 (splitChars_ne_nil _ _ _)
    · simp only [splitChars, List.isPrefixOf, beq_iff_eq, hx, Bool.and_true] at h
      cases hs : splitChars [c] xs 0 with
      | nil => exact absurd hs (splitChars_ne_nil _ _ _)
      | cons p ps =>
        rw [hs] at h
        simp only [Bool.false_eq_true, if_false, List.cons.injEq] at h
        obtain ⟨h1, h2⟩ := h
        subst h2
        obtain ⟨e1, e2⟩ := ih p hs
        subst h1
        subst e1
        refine ⟨rfl, ?_⟩
        simp only [List.mem_cons, not_or]
        exact ⟨hx, e2⟩

/-- A text that splits into two parts is the first part, the separator and
the second part, and neither part has a separator. -/
theorem splitChars_pair (c : Char) (s x y : List Char) (h : splitChars [c] s 0 = [x, y]) :
    s = x ++ c :: y ∧ c ∉ x ∧ c ∉ y := by
  induction s generalizing x with
  | nil => simp [splitChars] at h
  | cons a as ih =>
    by_cases ha : c = a
    · subst ha
      simp only [splitChars, List.isPrefixOf, beq_self_eq_true, Bool.and_true, if_true,
        List.length_singleton, Nat.sub_self, List.cons.injEq] at h
      obtain ⟨h1, h2⟩ := h
      subst h1
      obtain ⟨e1, e2⟩ := splitChars_single c as y h2
      subst e1
      simp [e2]
    · simp only [splitChars, List.isPrefixOf, beq_iff_eq, ha, Bool.and_true] at h
      cases hs : splitChars [c] as 0 with
      | nil => exact absurd hs (splitChars_ne_nil _ _ _)
      | cons p ps =>
        rw [hs] at h
        simp only [Bool.false_eq_true, if_false, List.cons.injEq] at h
        obtain ⟨h1, h2⟩ := h
        subst h2
        obtain ⟨e1, e2, e3⟩ := ih p hs
        subst h1
        subst e1
        refine ⟨rfl, ?_, e3⟩
        simp only [List.mem_cons, not_or]
        exact ⟨ha, e2⟩

end strings

namespace ec2

/-- What the parser returns when it returns no error: the two non-empty,
separator-free parts around the only separator of the identifier. -/
theorem parse_success (id : String)
    (h : (TransitGatewayPolicyTableAssociationParseResourceID id).2.2 = none) :
    (TransitGatewayPolicyTableAssociationParseResourceID id).1 ≠ "" ∧
    (TransitGatewayPolicyTableAssociationParseResourceID id).2.1 ≠ "" ∧
    '_' ∉ (TransitGatewayPolicyTableAssociationParseResourceID id).1.data ∧
    '_' ∉ (TransitGatewayPolicyTableAssociationParseResourceID id).2.1.data ∧
    id = (TransitGatewayPolicyTableAssociationParseResourceID id).1 ++ "_" ++
      (TransitGatewayPolicyTableAssociationParseResourceID id).2.1 := by
  revert h
  unfold TransitGatewayPolicyTableAssociationParseResourceID
  simp only [split_separator]
  split
  · rename_i hcond
    intro _
    obtain ⟨hlen, h0, h1⟩ := hcond
    rw [List.length_map] at hlen
    match hs : strings.splitChars ['_'] id.data 0, hlen with
    | [x, y], _ =>
      obtain ⟨e1, e2, e3⟩ := strings.splitChars_pair '_' id.data x y hs
      rw [hs] at h0 h1
      refine ⟨h0, h1, e2, e3, ?_⟩
      apply String.ext
      simp [String.data_append, e1]
  · intro h
    simp at h

end ec2

section IdentifierClaims

open ec2

/-- C14: `TransitGatewayPolicyTableAssociationParseResourceID id` returns no
error if and only if `id` is a non-empty text without `_`, one `_`, and
another non-empty text without `_`.  It then returns the text before and the
text after that `_`, and `TransitGatewayPolicyTableAssociationCreateResourceID`
applied to the returned pair is `id` again.  Identifiers `_x`, `x_` and `_`
split into two parts and are rejected all the same. -/
theorem C14_parse_succeeds_iff_one_separator (id : String) :
    ((TransitGatewayPolicyTableAssociationParseResourceID id).2.2 = none ↔
      ∃ p a : String, p ≠ "" ∧ a ≠ "" ∧ '_' ∉ p.data ∧ '_' ∉ a.data ∧ id = p ++ "_" ++ a) ∧
    ((TransitGatewayPolicyTableAssociationParseResourceID id).2.2 = none →
      id.data.count '_' = 1 ∧
      id.data = (TransitGatewayPolicyTableAssociationParseResourceID id).1.data ++
        '_' :: (TransitGatewayPolicyTableAssociationParseResourceID id).2.1.data ∧
      (TransitGatewayPolicyTableAssociationParseResourceID id).1 ≠ "" ∧
      (TransitGatewayPolicyTableAssociationParseResourceID id).2.1 ≠ "" ∧
      TransitGatewayPolicyTableAssociationCreateResourceID
        (TransitGatewayPolicyTableAssociationParseResourceID id).1
        (TransitGatewayPolicyTableAssociationParseResourceID id).2.1 = id) ∧
    (∀ x : String, '_' ∉ x.data →
      (strings.Split ("_" ++ x) transitGatewayPolicyTableAssociationIDSeparator).length = 2 ∧
      TransitGatewayPolicyTableAssociationParseResourceID ("_" ++ x) =
        ("", "", some (unexpectedFormatError ("_" ++ x))) ∧
      (strings.Split (x ++ "_") transitGatewayPolicyTableAssociationIDSeparator).length = 2 ∧
      TransitGatewayPolicyTableAssociationParseResourceID (x ++ "_") =
        ("", "", some (unexpectedFormatError (x ++ "_")))) ∧
    TransitGatewayPolicyTableAssociationParseResourceID "_" =
      ("", "", some (unexpectedFormatError "_")) := by
  refine ⟨⟨?_, ?_⟩, ?_, ?_, by decide⟩
  · intro h
    obtain ⟨h1, h2, h3, h4, h5⟩ := parse_success id h
    exact ⟨_, _, h1, h2, h3, h4, h5⟩
  · rintro ⟨p, a, hp, ha, hpu, hau, rfl⟩
    rw [← createResourceID_eq, parse_create p a hp ha hpu hau]
  · intro h
    obtain ⟨h1, h2, h3, h4, h5⟩ := parse_success id h
    have hdata : id.data = (TransitGatewayPolicyTableAssociationParseResourceID id).1.data ++
        '_' :: (TransitGatewayPolicyTableAssociationParseResourceID id).2.1.data := by
      have := congrArg String.data h5
      simpa [String.data_append] using this
    refine ⟨?_, hdata, h1, h2, ?_⟩
    · rw [hdata, List.count_append, List.count_cons, List.count_eq_zero_of_not_mem h3,
        List.count_eq_zero_of_not_mem h4]
      simp
    · rw [createResourceID_eq]
      exact h5.symm
  · intro x hx
    have hl : strings.Split ("_" ++ x) transitGatewayPolicyTableAssociationIDSeparator =
        ["", x] := by
      rw [split_separator]
      have : ("_" ++ x).data = [] ++ '_' :: x.data := by simp [String.data_append]
      rw [this, strings.splitChars_append_sep '_' [] x.data (by simp),
        strings.splitChars_of_not_mem '_' x.data hx]
      rfl
    have hr : strings.Split (x ++ "_") transitGatewayPolicyTableAssociationIDSeparator =
        [x, ""] := by
      rw [split_separator]
      have : (x ++ "_").data = x.data ++ '_' :: [] := by simp [String.data_append]
      rw [this, strings.splitChars_append_sep '_' x.data [] hx]
      rfl
    refine ⟨by rw [hl]; rfl, ?_, by rw [hr]; rfl, ?_⟩
    · simp [TransitGatewayPolicyTableAssociationParseResourceID, hl]
    · simp [TransitGatewayPolicyTableAssociationParseResourceID, hr]

theorem C14_parse_succeeds_iff_one_separator_witness :
    (TransitGatewayPolicyTableAssociationParseResourceID "tgw-ptb-1_tgw-attach-1").2.2 = none ∧
    TransitGatewayPolicyTableAssociationCreateResourceID
      (TransitGatewayPolicyTableAssociationParseResourceID "tgw-ptb-1_tgw-attach-1").1
      (TransitGatewayPolicyTableAssociationParseResourceID "tgw-ptb-1_tgw-attach-1").2.1 =
      "tgw-ptb-1_tgw-attach-1" ∧
    TransitGatewayPolicyTableAssociationParseResourceID ("_" ++ "x") =
      ("", "", some (unexpectedFormatError ("_" ++ "x"))) :=
  ⟨by decide,
   ((C14_parse_succeeds_iff_one_separator "tgw-ptb-1_tgw-attach-1").2.1 (by decide)).2.2.2.2,
   ((C14_parse_succeeds_iff_one_separator "").2.2.1 "x" (by decide)).2.1⟩

end IdentifierClaims

/-! ## Flattening lists of API objects -/

namespace redshiftserverless
open tf

/-- The loop shared by the three list flatteners: a step that keeps the list
at a nil element and appends the value `g` makes of a non-nil one collects
the values of the non-nil elements in order. -/
theorem flattenLoop {α : Type} (g : Option α → Value)
    (step : Slice Value → Option α → Slice Value)
    (hnone : ∀ t, step t none = t)
    (hsome : ∀ t a, step t (some a) = Slice.append t (g (some a)))
    (xs : List (Option α)) (acc : Slice Value) :
    xs.foldl step acc =
      if (xs.filterMap id).isEmpty then acc
      else some (acc.getD [] ++ (xs.filterMap id).map (fun x => g (some x))) := by
  induction xs generalizing acc with
  | nil => rfl
  | cons x xs ih =>
    cases x with
    | none =>
      rw [List.foldl_cons, hnone, ih]
      rfl
    | some a =>
      rw [List.foldl_cons, hsome, ih]
      cases h : List.filterMap id xs <;> simp [h, Slice.append]

theorem flattenLoop_nil {α : Type} (g : Option α → Value)
    (step : Slice Value → Option α → Slice Value)
    (hnone : ∀ t, step t none = t)
    (hsome : ∀ t a, step t (some a) = Slice.append t (g (some a)))
    (xs : Slice (Option α)) :
    (if Slice.len xs = 0 then (none : Slice Value) else (xs.getD []).foldl step none) =
      if (Slice.nonNil xs).isEmpty then none
      else some ((Slice.nonNil xs).map (fun x => g (some x))) := by
  by_cases h : Slice.len xs = 0
  · have h0 : xs.getD [] = [] := List.length_eq_zero.mp h
    simp [h, Slice.nonNil, h0]
  · rw [if_neg h, flattenLoop g step hnone hsome]
    simp [Slice.nonNil]

theorem flattenConfigParameters_eq (xs : Slice (Option ConfigParameter)) :
    flattenConfigParameters xs =
      if (Slice.nonNil xs).isEmpty then none
      else some ((Slice.nonNil xs).map
        (fun x => Value.ofMap (flattenConfigParameter (some x)))) := by
  unfold flattenConfigParameters
  exact flattenLoop_nil (fun o => Value.ofMap (flattenConfigParameter o)) _
    (fun _ => rfl) (fun _ _ => rfl) xs

theorem flattenVPCEndpoints_eq (xs : Slice (Option VpcEndpoint)) :
    flattenVPCEndpoints xs =
      if (Slice.nonNil xs).isEmpty then none
      else some ((Slice.nonNil xs).map
        (fun x => Value.ofMap (flattenVPCEndpoint (some x)))) := by
  unfold flattenVPCEndpoints
  exact flattenLoop_nil (fun o => Value.ofMap (flattenVPCEndpoint o)) _
    (fun _ => rfl) (fun _ _ => rfl) xs

theorem flattenNetworkInterfaces_eq (xs : Slice (Option NetworkInterface)) :
    flattenNetworkInterfaces xs =
      if (Slice.nonNil xs).isEmpty then none
      else some ((Slice.nonNil xs).map
        (fun x => Value.ofMap (flattenNetworkInterface (some x)))) := by
  unfold flattenNetworkInterfaces
  exact flattenLoop_nil (fun o => Value.ofMap (flattenNetworkInterface o)) _
    (fun _ => rfl) (fun _ _ => rfl) xs

/-- What a list flattener returns, read as a list, given its closed form. -/
theorem flattened_getD {α : Type} (r : Slice Value) (ys : List α) (f : α → Value)
    (h : r = if ys.isEmpty then none else some (ys.map f)) : r.getD [] = ys.map f := by
  subst h
  cases ys <;> rfl

end redshiftserverless

/-! ## Flattening single API objects -/

namespace redshiftserverless
open tf

theorem flattenConfigParameter_some (c : ConfigParameter) :
    flattenConfigParameter (some c) =
      some (fun k =>
        if k = "parameter_key" then c.ParameterKey.map Value.str
        else if k = "parameter_value" then c.ParameterValue.map Value.str
        else none) := by
  obtain ⟨pk, pv⟩ := c
  cases pk <;> cases pv <;>
  simp only [flattenConfigParameter, TfMap.insert, TfMap.empty, aws.StringValue, ne_eq,
    not_true_eq_false, reduceCtorEq, not_false_eq_true, if_true, if_false, Option.map_none',
    Option.map_some', Option.getD_some, Option.some.injEq] <;>
  funext k <;> split_ifs <;> first | rfl | simp_all [TfMap.insert, TfMap.empty]

theorem flattenNetworkInterface_some (n : NetworkInterface) :
    flattenNetworkInterface (some n) =
      some (fun k =>
        if k = "availability_zone" then n.AvailabilityZone.map Value.str
        else if k = "network_interface_id" then n.NetworkInterfaceId.map Value.str
        else if k = "private_ip_address" then n.PrivateIpAddress.map Value.str
        else if k = "subnet_id" then n.SubnetId.map Value.str
        else none) := by
  obtain ⟨az, ni, ip, sn⟩ := n
  cases az <;> cases ni <;> cases ip <;> cases sn <;>
  simp only [flattenNetworkInterface, TfMap.insert, TfMap.empty, aws.StringValue, ne_eq,
    not_true_eq_false, reduceCtorEq, not_false_eq_true, if_true, if_false, Option.map_none',
    Option.map_some', Option.getD_some, Option.some.injEq] <;>
  funext k <;> split_ifs <;> first | rfl | simp_all [TfMap.insert, TfMap.empty]

theorem flattenVPCEndpoint_some (v : VpcEndpoint) :
    flattenVPCEndpoint (some v) =
      some (fun k =>
        if k = "vpc_endpoint_id" then v.VpcEndpointId.map Value.str
        else if k = "vpc_id" then v.VpcId.map Value.str
        else if k = "network_interface" then
          v.NetworkInterfaces.map (fun ns => Value.ofSlice (flattenNetworkInterfaces (some ns)))
        else none) := by
  obtain ⟨ns, id, vpc⟩ := v
  cases ns <;> cases id <;> cases vpc <;>
  simp only [flattenVPCEndpoint, TfMap.insert, TfMap.empty, aws.StringValue, ne_eq,
    not_true_eq_false, reduceCtorEq, not_false_eq_true, if_true, if_false, Option.map_none',
    Option.map_some', Option.getD_some, Option.some.injEq] <;>
  funext k <;> split_ifs <;> first | rfl | simp_all [TfMap.insert, TfMap.empty]

theorem flattenEndpoint_some (e : Endpoint) :
    flattenEndpoint (some e) =
      some (fun k =>
        if k = "address" then e.Address.map Value.str
        else if k = "port" then e.Port.map Value.int64
        else if k = "vpc_endpoint" then
          e.VpcEndpoints.map (fun vs => Value.ofSlice (flattenVPCEndpoints (some vs)))
        else none) := by
  obtain ⟨addr, port, vs⟩ := e
  cases addr <;> cases port <;> cases vs <;>
  simp only [flattenEndpoint, TfMap.insert, TfMap.empty, aws.StringValue, aws.Int64Value, ne_eq,
    not_true_eq_false, reduceCtorEq, not_false_eq_true, if_true, if_false, Option.map_none',
    Option.map_some', Option.getD_some, Option.some.injEq] <;>
  funext k <;> split_ifs <;> first | rfl | simp_all [TfMap.insert, TfMap.empty]

end redshiftserverless

namespace redshiftserverless
open tf

theorem nonNil_length {α : Type} (xs : List (Option α)) :
    (xs.filterMap id).length = xs.countP (fun o => o.isSome) := by
  induction xs with
  | nil => rfl
  | cons x xs ih => cases x <;> simp [ih]

theorem nonNil_eq_nil {α : Type} (xs : List (Option α)) :
    xs.filterMap id = [] ↔ ∀ o ∈ xs, o = none := by
  induction xs with
  | nil => simp
  | cons x xs ih => cases x <;> simp [ih]

/-- What the closed form of a list flattener says about its result. -/
theorem list_flattener_props {α : Type} (xs : Slice (Option α)) (r : Slice Value)
    (f : α → Value)
    (h : r = if (Slice.nonNil xs).isEmpty then none else some ((Slice.nonNil xs).map f))
    (hf : ∀ x, ∃ m, f x = Value.map m) :
    (Slice.len xs = 0 → r = none) ∧
    r.getD [] = (Slice.nonNil xs).map f ∧
    (r = none ↔ ∀ o ∈ xs.getD [], o = none) ∧
    Slice.len r = (xs.getD []).countP (fun o => o.isSome) ∧
    (∀ v ∈ r.getD [], ∃ m, v = Value.map m) := by
  have hget : r.getD [] = (Slice.nonNil xs).map f := by
    subst h
    cases hn : Slice.nonNil xs <;> simp
  refine ⟨?_, hget, ?_, ?_, ?_⟩
  · intro hlen
    have h0 : xs.getD [] = [] := List.length_eq_zero.mp hlen
    subst h
    simp [Slice.nonNil, h0]
  · rw [← nonNil_eq_nil]
    subst h
    cases hn : Slice.nonNil xs with
    | nil =>
      have : List.filterMap id (xs.getD []) = [] := hn
      simp [this]
    | cons y ys =>
      have : List.filterMap id (xs.getD []) = y :: ys := hn
      simp [this]
  · rw [Slice.len, hget, List.length_map, ← nonNil_length]
    rfl
  · intro v hv
    rw [hget, List.mem_map] at hv
    obtain ⟨x, _, rfl⟩ := hv
    exact hf x

end redshiftserverless

section FlattenClaims

open redshiftserverless tf

/-- C15: each of `flattenConfigParameters`, `flattenVPCEndpoints` and
`flattenNetworkInterfaces` returns nil for an empty slice; in general its
result holds exactly one map per non-nil element of the input, in the order of
the input and made by the flattener of single objects, and nil elements are
skipped.  The result is nil exactly when the input has no non-nil element, its
length is the number of non-nil elements, and none of its entries is a nil
map. -/
theorem C15_list_flatteners_skip_nil (cs : Slice (Option ConfigParameter))
    (vs : Slice (Option VpcEndpoint)) (ns : Slice (Option NetworkInterface)) :
    ((Slice.len cs = 0 → flattenConfigParameters cs = none) ∧
      (flattenConfigParameters cs).getD [] =
        (Slice.nonNil cs).map (fun x => Value.ofMap (flattenConfigParameter (some x))) ∧
      (flattenConfigParameters cs = none ↔ ∀ o ∈ cs.getD [], o = none) ∧
      Slice.len (flattenConfigParameters cs) = (cs.getD []).countP (fun o => o.isSome) ∧
      (∀ v ∈ (flattenConfigParameters cs).getD [], ∃ m, v = Value.map m)) ∧
    ((Slice.len vs = 0 → flattenVPCEndpoints vs = none) ∧
      (flattenVPCEndpoints vs).getD [] =
        (Slice.nonNil vs).map (fun x => Value.ofMap (flattenVPCEndpoint (some x))) ∧
      (flattenVPCEndpoints vs = none ↔ ∀ o ∈ vs.getD [], o = none) ∧
      Slice.len (flattenVPCEndpoints vs) = (vs.getD []).countP (fun o => o.isSome) ∧
      (∀ v ∈ (flattenVPCEndpoints vs).getD [], ∃ m, v = Value.map m)) ∧
    ((Slice.len ns = 0 → flattenNetworkInterfaces ns = none) ∧
      (flattenNetworkInterfaces ns).getD [] =
        (Slice.nonNil ns).map (fun x => Value.ofMap (flattenNetworkInterface (some x))) ∧
      (flattenNetworkInterfaces ns = none ↔ ∀ o ∈ ns.getD [], o = none) ∧
      Slice.len (flattenNetworkInterfaces ns) = (ns.getD []).countP (fun o => o.isSome) ∧
      (∀ v ∈ (flattenNetworkInterfaces ns).getD [], ∃ m, v = Value.map m)) :=
  ⟨list_flattener_props cs _ _ (flattenConfigParameters_eq cs)
      (fun x => ⟨_, by rw [flattenConfigParameter_some]; rfl⟩),
   list_flattener_props vs _ _ (flattenVPCEndpoints_eq vs)
      (fun x => ⟨_, by rw [flattenVPCEndpoint_some]; rfl⟩),
   list_flattener_props ns _ _ (flattenNetworkInterfaces_eq ns)
      (fun x => ⟨_, by rw [flattenNetworkInterface_some]; rfl⟩)⟩

theorem C15_list_flatteners_skip_nil_witness :
    flattenConfigParameters (some []) = none ∧
    Slice.len (flattenConfigParameters
      (some [none, some ⟨some "datestyle", some "ISO, MDY"⟩, none,
        some ⟨some "query_group", none⟩])) = 2 :=
  ⟨(C15_list_flatteners_skip_nil (some []) none none).1.1 rfl,
   (C15_list_flatteners_skip_nil
      (some [none, some ⟨some "datestyle", some "ISO, MDY"⟩, none,
        some ⟨some "query_group", none⟩]) none none).1.2.2.2.1⟩

/-- C16: for a non-nil `Endpoint`, `flattenEndpoint` returns a map that has
the key `address`, `port` or `vpc_endpoint` exactly when `Address`, `Port` or
`VpcEndpoints` is non-nil, holding the pointed-to string, the pointed-to
number and the flattening of the VPC endpoints, and no other key.  That
flattening has one map per non-nil `VpcEndpoint`, with `vpc_endpoint_id` and
`vpc_id` copied when non-nil and `network_interface`, present when
`NetworkInterfaces` is non-nil, holding one map per non-nil `NetworkInterface`
with `availability_zone`, `network_interface_id`, `private_ip_address` and
`subnet_id` copied when non-nil.  No map has any further key. -/
theorem C16_flatten_endpoint_fieldwise (e : Endpoint) (v : VpcEndpoint) (n : NetworkInterface)
    (vs : Slice (Option VpcEndpoint)) (ns : Slice (Option NetworkInterface)) :
    flattenEndpoint (some e) =
      some (fun k =>
        if k = "address" then e.Address.map Value.str
        else if k = "port" then e.Port.map Value.int64
        else if k = "vpc_endpoint" then
          e.VpcEndpoints.map (fun vs => Value.ofSlice (flattenVPCEndpoints (some vs)))
        else none) ∧
    (flattenVPCEndpoints vs).getD [] =
      (Slice.nonNil vs).map (fun x => Value.ofMap (flattenVPCEndpoint (some x))) ∧
    flattenVPCEndpoint (some v) =
      some (fun k =>
        if k = "vpc_endpoint_id" then v.VpcEndpointId.map Value.str
        else if k = "vpc_id" then v.VpcId.map Value.str
        else if k = "network_interface" then
          v.NetworkInterfaces.map (fun ns => Value.ofSlice (flattenNetworkInterfaces (some ns)))
        else none) ∧
    (flattenNetworkInterfaces ns).getD [] =
      (Slice.nonNil ns).map (fun x => Value.ofMap (flattenNetworkInterface (some x))) ∧
    flattenNetworkInterface (some n) =
      some (fun k =>
        if k = "availability_zone" then n.AvailabilityZone.map Value.str
        else if k = "network_interface_id" then n.NetworkInterfaceId.map Value.str
        else if k = "private_ip_address" then n.PrivateIpAddress.map Value.str
        else if k = "subnet_id" then n.SubnetId.map Value.str
        else none) :=
  ⟨flattenEndpoint_some e, flattened_getD _ _ _ (flattenVPCEndpoints_eq vs),
   flattenVPCEndpoint_some v, flattened_getD _ _ _ (flattenNetworkInterfaces_eq ns),
   flattenNetworkInterface_some n⟩

end FlattenClaims

/-! ## Expanding and flattening config parameters -/

namespace redshiftserverless
open tf

/-- A map with exactly the two string entries of a config parameter block is
the value `d.Get` returns for that block. -/
theorem block_value (m : String → Option Value) (k v : String)
    (hk : m "parameter_key" = some (.str k)) (hv : m "parameter_value" = some (.str v))
    (hother : ∀ key, key ≠ "parameter_key" → key ≠ "parameter_value" → m key = none) :
    Value.map m = Attributes.configParameterValue ⟨k, v⟩ := by
  unfold Attributes.configParameterValue
  congr 1
  funext key
  simp only [TfMap.insert, TfMap.empty]
  split_ifs with h1 h2
  · rw [h1, hv]
  · rw [h2, hk]
  · exact hother key h2 h1

theorem blocks_exist (l : List (String → Option Value))
    (hl : ∀ m ∈ l, ∃ k v, m "parameter_key" = some (.str k) ∧
      m "parameter_value" = some (.str v) ∧
      ∀ key, key ≠ "parameter_key" → key ≠ "parameter_value" → m key = none) :
    ∃ cs : List ConfigParameterAttr,
      l.map Value.map = cs.map Attributes.configParameterValue ∧
      List.Forall₂ (fun m c => m "parameter_key" = some (.str c.parameter_key) ∧
        m "parameter_value" = some (.str c.parameter_value)) l cs := by
  induction l with
  | nil => exact ⟨[], rfl, List.Forall₂.nil⟩
  | cons m ms ih =>
    obtain ⟨cs, h1, h2⟩ := ih (fun x hx => hl x (List.mem_cons_of_mem _ hx))
    obtain ⟨k, v, hk, hv, ho⟩ := hl m (List.mem_cons_self _ _)
    refine ⟨⟨k, v⟩ :: cs, ?_, List.Forall₂.cons ⟨hk, hv⟩ h2⟩
    rw [List.map_cons, List.map_cons, h1, block_value m k v hk hv ho]

/-- Flattening what a block expands to gives the block back. -/
theorem flatten_expandedBlock (c : ConfigParameterAttr) :
    Value.ofMap (flattenConfigParameter (expandedBlock c)) =
      Attributes.configParameterValue c := by
  rw [expandedBlock, flattenConfigParameter_some]
  exact (block_value _ c.parameter_key c.parameter_value (by simp) (by simp)
    (fun key h1 h2 => by simp [h1, h2]))

theorem flatten_expanded (cs : List ConfigParameterAttr) (h : cs ≠ []) :
    flattenConfigParameters (some (cs.map expandedBlock)) =
      some (cs.map Attributes.configParameterValue) := by
  have hnn : Slice.nonNil (some (cs.map expandedBlock)) =
      cs.map (fun c => (⟨some c.parameter_key, some c.parameter_value⟩ : ConfigParameter)) := by
    simp only [Slice.nonNil, Option.getD_some]
    induction cs with
    | nil => rfl
    | cons c cs ih =>
      cases cs with
      | nil => rfl
      | cons c2 cs2 =>
        have := ih (by simp)
        simp only [List.map_cons, expandedBlock, List.filterMap_cons, id_eq] at this ⊢
        rw [this]
  rw [flattenConfigParameters_eq, hnn]
  have hne : (cs.map (fun c =>
      (⟨some c.parameter_key, some c.parameter_value⟩ : ConfigParameter))).isEmpty = false := by
    cases cs with
    | nil => exact absurd rfl h
    | cons c cs => rfl
  rw [hne]
  simp only [Bool.false_eq_true, if_false, List.map_map, Option.some.injEq]
  apply List.map_congr_left
  intro c _
  exact flatten_expandedBlock c

end redshiftserverless

section RoundTripClaims

open redshiftserverless tf

/-- C12: expand/flatten round trip for config parameters.  For a non-empty
list `l` of maps, each holding a string under `parameter_key`, a string under
`parameter_value` and nothing else, `expandConfigParameters` returns one
`ConfigParameter` per map, in order, whose `ParameterKey` and `ParameterValue`
are the two strings of that map, and `flattenConfigParameters` of that result
is `l` again. -/
theorem C12_config_parameters_roundtrip (l : List (String → Option Value)) (hne : l ≠ [])
    (hl : ∀ m ∈ l, ∃ k v, m "parameter_key" = some (.str k) ∧
      m "parameter_value" = some (.str v) ∧
      ∀ key, key ≠ "parameter_key" → key ≠ "parameter_value" → m key = none) :
    flattenConfigParameters (expandConfigParameters (some (l.map Value.map))) =
      some (l.map Value.map) ∧
    ∃ ps : List ConfigParameter,
      expandConfigParameters (some (l.map Value.map)) = some (ps.map some) ∧
      List.Forall₂ (fun m p => m "parameter_key" = p.ParameterKey.map Value.str ∧
        m "parameter_value" = p.ParameterValue.map Value.str ∧
        p.ParameterKey ≠ none ∧ p.ParameterValue ≠ none) l ps := by
  obtain ⟨cs, h1, h2⟩ := blocks_exist l hl
  have hcs : cs ≠ [] := by
    intro h
    subst h
    have := h2.length_eq
    exact hne (List.length_eq_zero.mp this)
  have hexp : expandConfigParameters (some (l.map Value.map)) = some (cs.map expandedBlock) := by
    rw [h1, expandConfigParameters_blocks, if_neg hcs]
  refine ⟨?_, cs.map (fun c => ⟨some c.parameter_key, some c.parameter_value⟩), ?_, ?_⟩
  · rw [hexp, flatten_expanded cs hcs, h1]
  · rw [hexp, List.map_map]
    rfl
  · rw [List.forall₂_map_right_iff]
    exact List.Forall₂.imp (fun _ _ h => ⟨h.1, h.2, by simp, by simp⟩) h2

theorem C12_config_parameters_roundtrip_witness :
    flattenConfigParameters (expandConfigParameters (some
      ([fun key => if key = "parameter_key" then some (Value.str "datestyle")
          else if key = "parameter_value" then some (Value.str "ISO, MDY") else none].map
        Value.map))) =
      some ([fun key => if key = "parameter_key" then some (Value.str "datestyle")
          else if key = "parameter_value" then some (Value.str "ISO, MDY") else none].map
        Value.map) :=
  (C12_config_parameters_roundtrip
    [fun key => if key = "parameter_key" then some (Value.str "datestyle")
      else if key = "parameter_value" then some (Value.str "ISO, MDY") else none]
    (by simp)
    (by
      intro m hm
      rw [List.mem_singleton] at hm
      subst hm
      exact ⟨"datestyle", "ISO, MDY", by simp, by simp, fun key h1 h2 => by simp [h1, h2]⟩)).1

end RoundTripClaims
